import Mathlib

/-!
Verification of the dotnetserde decoders against their specification.

The development shallowly embeds the parts of the Python sources that the
checked claims touch:

* `binary/handlers.py` — the NRBF byte-level readers and record handlers
  (byte streams are `List Nat`, each element a byte value);
* `binary/bridge.py` — the NRBF-to-CLI bridge (`Bridge._convert_value`
  and its type-resolution helpers), with Python object identity modelled
  by numeric ids in explicit stores;
* `cli/models.py` / `cli/builtins.py` — the CLI type model
  (`CLIType.stringify`, instantiation, `Builtins.from_python_value`);
* `datacontract/xsdatatypes.py` — the XSD serializers;
* `datacontract/handlers.py` — the SAX member-handler dispatch.

Fallible Python code is embedded via `Except`; functions whose Python
counterparts recurse through the heap take an explicit fuel argument and
return `none` on exhaustion, so non-termination of the source is expressed
as `∀ fuel, f fuel x = none`.
-/

namespace Dotnetserde

/-! ## Byte-stream primitives (binary/handlers.py:48-52) -/

/-- Error taxonomy of the binary decoder (binary/exceptions.py), plus the
bookkeeping outcomes the embedding needs: `keyError` for a failed
`dict[...]` lookup, `assertionFailed` for a failed `assert`, and
`unmodeled` for source paths outside every claim's scope. -/
inductive BinErr where
  | unexpectedEOF (expected actual : Nat)
  | invalidStream (msg : String)
  | versionMismatch (msg : String)
  | unknownRecord (code : Nat)
  | unresolvableLibraryId (libraryId : Int)
  | bridgeError (msg : String)
  | keyError
  | assertionFailed
  | notImplemented
  | unmodeled
  | typeError
  | fuelExhausted
  deriving Repr, DecidableEq

/-- `read(f, 1)` followed by `b[0]`: one byte off the stream, or
`UnexpectedEOF(1, 0)`. -/
def readByte : List Nat → Except BinErr (Nat × List Nat)
  | [] => .error (.unexpectedEOF 1 0)
  | b :: rest => .ok (b, rest)

/-- `read(f, n)` (binary/handlers.py:48-52): `n` bytes off the stream, or
`UnexpectedEOF(n, available)`. -/
def readBytes (n : Nat) (s : List Nat) : Except BinErr (List Nat × List Nat) :=
  if s.length < n then .error (.unexpectedEOF n s.length)
  else .ok (s.take n, s.drop n)

/-! ## Length-prefixed strings (binary/handlers.py:55-99)

`_LengthPrefixedStringReader.__call__` reads a variable-length length and
then that many payload bytes.  The UTF-8 `.decode(encoding)` step is kept
at the byte level: the embedding returns the payload byte sequence, which
is all the claims inspect. -/

/-- Direct translation of `_LengthPrefixedStringReader.__call__`
(binary/handlers.py:59-99).  Note that from the third length byte on the
source masks the accumulated length with `0x7F` (`l = (l & 0x7F) | ...`),
so the contribution of every byte between the first and the most recent
one is discarded. -/
def lengthPrefixedStringReader (s : List Nat) :
    Except BinErr (List Nat × List Nat) := do
  let (l, s) ← readByte s
  if l ≤ 127 then
    readBytes l s
  else do
    let (ll, s) ← readByte s
    let l := (l &&& 0x7F) ||| (ll &&& 0x7F) * 128
    if ll ≤ 127 then
      readBytes l s
    else do
      let (ll, s) ← readByte s
      let l := (l &&& 0x7F) ||| (ll &&& 0x7F) * 16384
      if ll ≤ 127 then
        readBytes l s
      else do
        let (ll, s) ← readByte s
        let l := (l &&& 0x7F) ||| (ll &&& 0x7F) * 2097152
        if ll ≤ 127 then
          readBytes l s
        else do
          let (ll, s) ← readByte s
          let l := (l &&& 0x7F) ||| (ll &&& 0x7F) * 268435456
          if ll ≤ 127 then
            readBytes l s
          else
            .error (.invalidStream "invalid length prefix")

/-- The NRBF length-prefix encoding named by the claim: little-endian
base-128, 7 bits per byte, high bit marking continuation.  Five groups
cover every `n < 2 ^ 35`, far beyond the claim's `[0, 2 ^ 28)` range, so a
fuel of 5 makes the definition structural. -/
def leb128EncodeAux : Nat → Nat → List Nat
  | 0, n => [n]
  | fuel + 1, n =>
    if n ≤ 127 then [n] else (n % 128 + 128) :: leb128EncodeAux fuel (n / 128)

/-- Encode a length as an NRBF length prefix. -/
def leb128Encode (n : Nat) : List Nat := leb128EncodeAux 5 n

/-! ## Serialized stream header (binary/handlers.py:367-383) -/

/-- Little-endian signed 32-bit integer from four byte values
(`struct.unpack("<l", ...)`). -/
def decodeI32le (b0 b1 b2 b3 : Nat) : Int :=
  let u : Nat := b0 + b1 * 256 + b2 * 65536 + b3 * 16777216
  if u < 2147483648 then (u : Int) else (u : Int) - 4294967296

/-- The header fields `set_header` stores on the decode context
(binary/deserialization.py:15-19). -/
structure HeaderInfo where
  rootId : Option Int := none
  headerId : Option Int := none
  majorVersion : Option Int := none
  minorVersion : Option Int := none
  deriving Repr, DecidableEq

/-- `SerializedStreamHandler.deserialize` (binary/handlers.py:370-380):
read 16 bytes, unpack four little-endian i32 fields, and raise
`VersionMismatch` when `major_version != 1 and minor_version != 0` —
the source combines the two comparisons with `and`.  The final catch-all
match arm is unreachable: `readBytes 16` always yields 16 bytes. -/
def serializedStreamHandlerDeserialize (s : List Nat) :
    Except BinErr (HeaderInfo × List Nat) := do
  let (b, s) ← readBytes 16 s
  match b with
  | [a0, a1, a2, a3, b0, b1, b2, b3, c0, c1, c2, c3, d0, d1, d2, d3] =>
    let rootId := decodeI32le a0 a1 a2 a3
    let headerId := decodeI32le b0 b1 b2 b3
    let majorVersion := decodeI32le c0 c1 c2 c3
    let minorVersion := decodeI32le d0 d1 d2 d3
    if majorVersion ≠ 1 ∧ minorVersion ≠ 0 then
      .error (.versionMismatch "this implementation only supports version 1.0 format")
    else
      .ok ({ rootId := some rootId, headerId := some headerId,
             majorVersion := some majorVersion, minorVersion := some minorVersion }, s)
  | _ => .error .assertionFailed

/-! ## XSD serializers (datacontract/xsdatatypes.py) -/

/-- Python `ValueError` raised by the XSD deserializers. -/
inductive XsdErr where
  | valueError (msg : String)
  deriving Repr, DecidableEq

/-- Which builtin `CLITypeInstance` an XSD serializer stores as its
`cli_type` (each serializer keeps one of `builtins.SYSTEM_*`). -/
inductive CliTypeTag where
  | boolean
  | int32
  | int64
  | stringTy
  | double
  | decimalTy
  | dateTime
  | byteArray
  deriving Repr, DecidableEq

/-- Payload of a `CLIBasicValue` produced by the XSD layer. -/
inductive XsdVal where
  | b (x : Bool)
  | i (x : Int)
  | s (x : String)
  | noneV
  deriving Repr, DecidableEq

/-- `CLIBasicValue(cli_type, value)` as the XSD layer builds it. -/
structure XsdBasicValue where
  typeInstance : CliTypeTag
  value : XsdVal
  deriving Repr, DecidableEq

/-- Python `str.lower()` on the ASCII range (every input the claims
exercise is ASCII, where the two functions agree). -/
def pyStrLower (s : String) : String := String.mk (s.data.map Char.toLower)

/-- `BooleanSerializer.deserialize` (datacontract/xsdatatypes.py:137-146):
lower-case the input, accept `"true"`/`"1"` as `True`; the second branch
reads `value == "false" or value == "false"` in the source — the literal
`"false"` is duplicated where the spec calls for `"0"` — and everything
else raises `ValueError(value)`. -/
def booleanSerializerDeserialize (value : String) : Except XsdErr XsdBasicValue :=
  let value := pyStrLower value
  if value = "true" ∨ value = "1" then
    .ok ⟨.boolean, .b true⟩
  else if value = "false" ∨ value = "false" then
    .ok ⟨.boolean, .b false⟩
  else
    .error (.valueError value)

/-- Python `int.bit_length()`: the number of bits of the absolute value,
which is exactly `Nat.size`. -/
def pyBitLength (n : Int) : Nat := n.natAbs.size

/-- `LongSerializer.deserialize` (datacontract/xsdatatypes.py:79-83) on the
already-parsed integer: `bl = value.bit_length() + 1 if value > 0 else
(value + 1).bit_length() + 1`, `Int32` when `bl <= 32`, `Int64`
otherwise. -/
def longSerializerDeserialize (value : Int) : XsdBasicValue :=
  let bl := if value > 0 then pyBitLength value + 1 else pyBitLength (value + 1) + 1
  if bl ≤ 32 then ⟨.int32, .i value⟩ else ⟨.int64, .i value⟩

/-! ## SAX handler method dispatch (datacontract/handlers.py)

Python delivers a SAX event by calling the handler's method of the
event's name; the method is found by attribute lookup along the class
hierarchy.  The embedding makes that lookup explicit, because
`BasicObjectHandler`'s would-be override of `startElementNS` is spelled
`startElemenNS` in the source (datacontract/handlers.py:337). -/

/-- Python errors of the data-contract layer
(datacontract/exceptions.py), plus `attributeError` for a name that no
class along the MRO binds. -/
inductive DcErr where
  | invalidDataContractPayload (msg : String)
  | attributeError (name : String)
  deriving Repr, DecidableEq

/-- Mutable state of a `BasicObjectHandler`: the accumulated character
chunks (`self._chunks`). -/
structure BasicObjectHandlerState where
  chunks : List String
  deriving Repr, DecidableEq

/-- A SAX event method in the embedding: it receives the event payload
(the element name for start and end events, the character data for
`characters`) and transforms the handler state, possibly raising. -/
def SaxMethod : Type :=
  String → BasicObjectHandlerState → Except DcErr BasicObjectHandlerState

/-- The event methods `xml.sax.handler.ContentHandler` — the standard
library base class behind `BaseHandler` — defines: each one,
`startElementNS` included, is a do-nothing default. -/
def contentHandlerMethods : List (String × SaxMethod) :=
  [("startElementNS", fun _ st => .ok st),
   ("endElementNS", fun _ st => .ok st),
   ("characters", fun _ st => .ok st)]

/-- The event methods the `BasicObjectHandler` class body defines
(datacontract/handlers.py:334-357): `characters` appends the chunk, and
the method that raises `InvalidDataContractPayload` for a nested element
is named `startElemenNS` in the source — the `t` of `Element` is
missing — so the class binds no attribute named `startElementNS`.
(`endElementNS`, the XSD deserialization of the accumulated text, is not
reached by the claim and is left to the base table.) -/
def basicObjectHandlerMethods : List (String × SaxMethod) :=
  [("characters", fun content st => .ok { st with chunks := st.chunks ++ [content] }),
   ("startElemenNS", fun _ _ =>
      .error (.invalidDataContractPayload
        "basic object may not contain nested elements"))]

/-- Python attribute lookup along the method-resolution order: the first
class dict that binds the name wins. -/
def lookupAttr : List (List (String × SaxMethod)) → String → Option SaxMethod
  | [], _ => none
  | table :: rest, name =>
    match table.lookup name with
    | some m => some m
    | none => lookupAttr rest name

/-- The MRO of `BasicObjectHandler`: its own class dict, then
`BaseHandler` (which defines no start-element method and contributes
nothing the claim touches), then `ContentHandler`. -/
def basicObjectHandlerMRO : List (List (String × SaxMethod)) :=
  [basicObjectHandlerMethods, contentHandlerMethods]

/-- Delivering a SAX event: resolve the method by name along the MRO and
invoke it.  The SAX driver delivers a start-element event by calling
`startElementNS`. -/
def deliverEvent (mro : List (List (String × SaxMethod))) (method : String)
    (arg : String) (st : BasicObjectHandlerState) :
    Except DcErr BasicObjectHandlerState :=
  match lookupAttr mro method with
  | some m => m arg st
  | none => .error (.attributeError method)

/-! ## The `xsi:nil` branch of MemberHandler (datacontract/handlers.py:390-399) -/

/-- Namespace constant (datacontract/handlers.py:24). -/
def XMLSCHEMA_INSTANCE_NAMESPACE : String :=
  "http://www.w3.org/2001/XMLSchema-instance"

/-- Python truthiness of a `CLIBasicValue` object: the dataclass defines
neither `__bool__` nor `__len__`, so every instance — one wrapping
`False` included — is truthy. -/
def pyTruthyBasicValue (_v : XsdBasicValue) : Bool := true

/-- Outcome of the first branch of `MemberHandler.startElementNS`. -/
inductive NilDecision where
  | installNilHandler
  | fallThrough
  deriving Repr, DecidableEq

/-- The `xsi:nil` branch of `MemberHandler.startElementNS`
(datacontract/handlers.py:396-399): fetch the attribute and, when it is
present, run `self.ctx.xs_deserialize("bool", xsin)` — which routes to
`BooleanSerializer.deserialize` (datacontract/deserialization.py:65-66)
— and test the truthiness of the returned `CLIBasicValue` object; a
truthy result replaces the member handler with a `NilObjectHandler`. -/
def memberHandlerNilCheck (attrs : List ((String × String) × String)) :
    Except XsdErr NilDecision :=
  match attrs.lookup (XMLSCHEMA_INSTANCE_NAMESPACE, "nil") with
  | none => .ok .fallThrough
  | some xsin =>
    match booleanSerializerDeserialize xsin with
    | .error e => .error e
    | .ok bv =>
      if pyTruthyBasicValue bv then .ok .installNilHandler else .ok .fallThrough

/-- `NilObjectHandler.endElementNS` (datacontract/handlers.py:369-377):
push `CLIBasicValue(cli_type, None)` for the member's CLI type. -/
def nilObjectHandlerEnd (cliType : CliTypeTag) : XsdBasicValue := ⟨cliType, .noneV⟩

/-! ## The CLI type model (cli/models.py)

Python objects carry identity (`id(...)`), which `CLITypeResolutionContext`
uses as a cache key and `stringify` as a cycle sentinel.  The embedding
makes identity explicit: `CLIType` objects live in a store
`List (Nat × TypeNode)` keyed by numeric id, resolution contexts in a
store `List (Nat × ResolutionCtx)`, and a `CLITypeInstance` is a pair of
ids (its context and the `CLIType` it derives from). -/

/-- `CLINamespace` (cli/models.py:11-18): a name and an optional parent.
`root name` is a namespace whose `namespace` attribute is `None`. -/
inductive CLINamespace where
  | root (name : String)
  | child (name : String) (parent : CLINamespace)
  deriving Repr, DecidableEq

/-- `CLINamespace.__str__` (cli/models.py:16-18): dotted concatenation,
an empty outer string contributing no dot. -/
def cliNamespaceStr : CLINamespace → String
  | .root name => name
  | .child name parent =>
    let outer := cliNamespaceStr parent
    (if outer ≠ "" then outer ++ "." else "") ++ name

/-- `ROOT_NAMESPACE` (cli/models.py:595). -/
def ROOT_NAMESPACE : CLINamespace := .root ""

/-- `INTERNAL_NAMESPACE` (cli/models.py:597). -/
def INTERNAL_NAMESPACE : CLINamespace := .root "__internal__"

/-- `SYSTEM_NAMESPACE` and descendants (cli/builtins.py:18-22). -/
def SYSTEM_NAMESPACE : CLINamespace := .child "System" ROOT_NAMESPACE

def SYSTEM_COLLECTIONS_NAMESPACE : CLINamespace :=
  .child "Collections" SYSTEM_NAMESPACE

def SYSTEM_COLLECTIONS_GENERIC_NAMESPACE : CLINamespace :=
  .child "Generic" SYSTEM_COLLECTIONS_NAMESPACE

/-- A `CLITypeInstance` reference: the id of its
`CLITypeResolutionContext` and the id of the `CLIType` it derives from.
(`builtin_name` plays no role in any claim and is omitted.) -/
structure InstRef where
  ctxId : Nat
  derivedFrom : Nat
  deriving Repr, DecidableEq

/-- A `CLITypeResolvable` (cli/models.py:44-63): either a
`CLITypeBinding` — identified by the parameter name, since
`CLITypeParam` is a frozen dataclass compared by its `name` field — or a
`CLITypeInstance`. -/
inductive Resolvable where
  | binding (ref : String)
  | inst (i : InstRef)
  deriving Repr, DecidableEq

/-- A `CLIType` object (cli/models.py:141-419).  `parameters` holds the
`CLITypeParam` names in ordinal order; `members` the
`CLITypeMember (name, type)` declarations; `nspace` is the source's
`namespace` attribute (a Lean keyword).  `default_parameters` is empty
for every type the claims touch and is omitted.  `memberHandler` records
whether a `member_handler` is attached (only
`KeyValuePair`'s tuple-builder in the source); the handler's body is
outside every claim. -/
structure TypeNode where
  name : String
  nspace : CLINamespace
  parameters : List String
  resolvedParameters : List (Option Resolvable)
  intrinsic : Bool
  members : List (String × Resolvable)
  derivedFrom : Option Nat
  memberHandler : Bool
  deriving Repr, DecidableEq

/-- `CLITypeResolutionContext` (cli/models.py:37-41): `resolved` keyed by
`id(Type)`, `refs` keyed by `CLITypeParam`, `reprs` keyed by
`id(Type)`. -/
structure ResolutionCtx where
  resolved : List (Nat × InstRef)
  refs : List (String × InstRef)
  reprs : List (Nat × String)
  deriving Repr, DecidableEq

/-- Replace-or-append update of an association list, modelling
`dict[k] = v`. -/
def alistSet {α β : Type} [BEq α] : List (α × β) → α → β → List (α × β)
  | [], k, v => [(k, v)]
  | (k', v') :: rest, k, v =>
    if k' == k then (k, v) :: rest else (k', v') :: alistSet rest k v

/-! ### `CLIType.stringify` (cli/models.py:182-200)

The three mutually recursive functions below translate
`CLIType.stringify`, the rendering of a resolved-parameter list, and
`CLITypeResolvable.stringify`.  `CLITypeInstance.stringify` ignores the
context it is handed and uses the instance's own (`self.ctx`,
cli/models.py:504-505), which is why `stringifyResolvable` switches to
`i.ctxId`.  The `reprs` maps mutate, so the context store threads
through; `fuel` bounds the recursion depth (the source recursion is
bounded by the sentinel, the embedding returns `none` when fuel runs
out, and a missing store entry or unbound binding — a `ValueError` in
the source — also yields `none`). -/

/-- The argument of a stringification step: a `CLIType` (context id and
type id), a resolved-parameter list, or a single `CLITypeResolvable`. -/
inductive StringifyArg where
  | ty (ctxId tid : Nat)
  | params (ctxId : Nat) (ps : List (Option Resolvable))
  | resv (ctxId : Nat) (r : Resolvable)

/-- The result of a stringification step: one string for `ty` and
`resv`, the list of rendered slots for `params`. -/
inductive StringifyRes where
  | one (s : String)
  | many (ss : List String)

/-- One combined function for the three mutually recursive
stringifications, recursing structurally on `fuel` so that concrete runs
reduce definitionally.  The `ty` case is `CLIType.stringify`, the
`params` case renders the resolved-parameter list (`"?"` for a `None`
slot), and the `resv` case is `CLITypeResolvable.stringify` —
`CLITypeBinding.stringify` resolves through `ctx.refs` and
`CLITypeInstance.stringify` discards the context it is handed in favour
of the instance's own. -/
def stringifyStep (fuel : Nat) (types : List (Nat × TypeNode))
    (ctxs : List (Nat × ResolutionCtx)) :
    StringifyArg → Option (StringifyRes × List (Nat × ResolutionCtx))
  | arg =>
    match fuel with
    | 0 => none
    | fuel + 1 =>
      match arg with
      | .ty ctxId tid =>
        match ctxs.lookup ctxId, types.lookup tid with
        | some ctx, some t =>
          match ctx.reprs.lookup tid with
          | some s => some (.one s, ctxs)
          | none =>
            let ctxs := alistSet ctxs ctxId
              { ctx with reprs := alistSet ctx.reprs tid "..." }
            match (if t.parameters.isEmpty then some ("", ctxs)
              else
                match stringifyStep fuel types ctxs
                    (.params ctxId t.resolvedParameters) with
                | some (.many ps, ctxs) =>
                  some ("<" ++ String.intercalate ", " ps ++ ">", ctxs)
                | _ => none) with
            | none => none
            | some (paramList, ctxs) =>
              let ns := cliNamespaceStr t.nspace
              let ns := if ns ≠ "" then ns ++ "." else ns
              let s := ns ++ t.name ++ paramList
              match ctxs.lookup ctxId with
              | some ctx2 =>
                some (.one s, alistSet ctxs ctxId
                  { ctx2 with reprs := alistSet ctx2.reprs tid s })
              | none => none
        | _, _ => none
      | .params ctxId ps =>
        match ps with
        | [] => some (.many [], ctxs)
        | none :: rest =>
          match stringifyStep fuel types ctxs (.params ctxId rest) with
          | some (.many ss, ctxs) => some (.many ("?" :: ss), ctxs)
          | _ => none
        | some r :: rest =>
          match stringifyStep fuel types ctxs (.resv ctxId r) with
          | some (.one s, ctxs) =>
            match stringifyStep fuel types ctxs (.params ctxId rest) with
            | some (.many ss, ctxs) => some (.many (s :: ss), ctxs)
            | _ => none
          | _ => none
      | .resv ctxId r =>
        match r with
        | .inst i => stringifyStep fuel types ctxs (.ty i.ctxId i.derivedFrom)
        | .binding ref =>
          match ctxs.lookup ctxId with
          | some ctx =>
            match ctx.refs.lookup ref with
            | some p => stringifyStep fuel types ctxs (.ty p.ctxId p.derivedFrom)
            | none => none
          | none => none

/-- `CLIType.stringify(ctx)` run to a string (the store of contexts is
dropped). -/
def stringifyType (fuel : Nat) (types : List (Nat × TypeNode))
    (ctxs : List (Nat × ResolutionCtx)) (ctxId tid : Nat) : Option String :=
  match stringifyStep fuel types ctxs (.ty ctxId tid) with
  | some (.one s, _) => some s
  | _ => none

/-- `str(instance)` = `instance.derived_from.stringify(instance.ctx)`
(cli/models.py:501-505). -/
def strOfInstance (fuel : Nat) (types : List (Nat × TypeNode))
    (ctxs : List (Nat × ResolutionCtx)) (i : InstRef) : Option String :=
  stringifyType fuel types ctxs i.ctxId i.derivedFrom

/-! ## NRBF intermediate model (binary/models.py) -/

/-- `PrimitiveType` (binary/models.py). -/
inductive PrimitiveTypeM where
  | boolean
  | byte
  | char
  | decimalT
  | double
  | int16
  | int32
  | int64
  | sbyte
  | single
  | timespan
  | datetime
  | uint16
  | uint32
  | uint64
  | nullT
  | stringT
  deriving Repr, DecidableEq

/-- `BinaryType` (binary/models.py). -/
inductive BinaryTypeM where
  | primitive
  | stringBt
  | object
  | systemClass
  | classBt
  | objectArray
  | stringArray
  | primitiveArray
  deriving Repr, DecidableEq

/-- `BinaryArrayType` (binary/models.py). -/
inductive BinaryArrayTypeM where
  | single
  | jagged
  | rectangular
  | singleOffset
  | jaggedOffset
  | rectangularOffset
  deriving Repr, DecidableEq

/-- `ClassTypeInfo` (binary/models.py). -/
structure ClassTypeInfoM where
  name : String
  libraryId : Int
  deriving Repr, DecidableEq

/-- `TypeInfo.additional_info`: a `PrimitiveType`, a `ClassTypeInfo`, a
class-name string, or `None`, depending on the binary type. -/
inductive AdditionalInfo where
  | primitive (p : PrimitiveTypeM)
  | classInfo (c : ClassTypeInfoM)
  | str (s : String)
  | noneA
  deriving Repr, DecidableEq

/-- `TypeInfo` (binary/models.py). -/
structure TypeInfoM where
  binaryType : BinaryTypeM
  additionalInfo : AdditionalInfo
  deriving Repr, DecidableEq

/-- `MemberInfo` (binary/types.py). -/
structure MemberInfoM where
  name : String
  typeInfo : TypeInfoM
  deriving Repr, DecidableEq

/-- `ClassInfo` (binary/models.py). -/
structure ClassInfoM where
  objectId : Int
  name : String
  members : List MemberInfoM := []
  libraryId : Option Int := none
  deriving Repr, DecidableEq

/-- `ArrayInfo` (binary/models.py). -/
structure ArrayInfoM where
  objectId : Int
  shape : List Int
  lowerBounds : List Int
  type : Option BinaryArrayTypeM := none
  typeInfo : Option TypeInfoM := none
  deriving Repr, DecidableEq

/-- The dynamically typed (`typing.Any`) values the record layer
produces: `Instance`, `Array`, `ObjectReference`, and the Python
primitives the modelled readers yield.  The readers for `Double`,
`Single`, `TimeSpan`, `DateTime` and `Decimal` produce floating-point,
date-time or decimal objects that no claim inspects and are not part of
this universe. -/
inductive RValue where
  | inst (classInfo : ClassInfoM) (values : Option (List RValue))
  | arr (arrayInfo : ArrayInfoM) (values : Option (List RValue))
  | objectRef (objectId : Int)
  | pyNone
  | pyBool (b : Bool)
  | pyInt (i : Int)
  | pyStr (s : String)
  | pyBytes (bs : List Nat)
  deriving Repr

/-- `_DeserializationContext` (binary/deserialization.py:7-35), which is
also the `DeserializationResult` the bridge consumes. -/
structure DecodeCtxM where
  rootId : Option Int := none
  headerId : Option Int := none
  majorVersion : Option Int := none
  minorVersion : Option Int := none
  libraryIdNameMappings : List (Int × String) := []
  objects : List (Int × RValue) := []
  deriving Repr

/-! ## NRBF primitive and element readers (binary/handlers.py:227-354, 817-935) -/

/-- Bytes decoded as a string.  The source decodes UTF-8; the embedding
covers the ASCII subset, on which the two agree (every string the claims
exercise is ASCII). -/
def asciiDecode (bs : List Nat) : String := String.mk (bs.map Char.ofNat)

/-- `struct.unpack("<h", ...)`: little-endian signed 16-bit. -/
def decodeI16le (b0 b1 : Nat) : Int :=
  let u : Nat := b0 + b1 * 256
  if u < 32768 then (u : Int) else (u : Int) - 65536

/-- `struct.unpack("<q", ...)`: little-endian signed 64-bit. -/
def decodeI64le (b0 b1 b2 b3 b4 b5 b6 b7 : Nat) : Int :=
  let u : Nat := b0 + b1 * 2 ^ 8 + b2 * 2 ^ 16 + b3 * 2 ^ 24 + b4 * 2 ^ 32 +
    b5 * 2 ^ 40 + b6 * 2 ^ 48 + b7 * 2 ^ 56
  if u < 9223372036854775808 then (u : Int) else (u : Int) - 18446744073709551616

/-- Four bytes as a little-endian signed 32-bit integer, off the
stream. -/
def readI32 (s : List Nat) : Except BinErr (Int × List Nat) := do
  let (b, s) ← readBytes 4 s
  match b with
  | [b0, b1, b2, b3] => .ok (decodeI32le b0 b1 b2 b3, s)
  | _ => .error .assertionFailed

/-- `_UntypedPrimitiveValueReader` (binary/handlers.py:227-346): the
reader for one primitive type, yielding (a singleton list of) one value.
`bool(b[0])` is true exactly for a non-zero byte; `read_char` uses the
signed 16-bit unpack `"<h"` as the source does.  `Decimal` and `Null`
raise `NotImplementedError`; the floating-point and date-time readers
(`double`, `single`, `timespan`, `datetime`) build values outside the
embedding's value universe and no claim touches them. -/
def untypedPrimitiveValueReader (p : PrimitiveTypeM) (s : List Nat) :
    Except BinErr (List RValue × List Nat) :=
  match p with
  | .boolean => do
    let (b, s) ← readByte s
    .ok ([.pyBool (b != 0)], s)
  | .byte => do
    let (b, s) ← readByte s
    .ok ([.pyInt b], s)
  | .char => do
    let (b, s) ← readBytes 2 s
    match b with
    | [b0, b1] => .ok ([.pyInt (decodeI16le b0 b1)], s)
    | _ => .error .assertionFailed
  | .decimalT => .error .notImplemented
  | .double => .error .unmodeled
  | .int16 => do
    let (b, s) ← readBytes 2 s
    match b with
    | [b0, b1] => .ok ([.pyInt (decodeI16le b0 b1)], s)
    | _ => .error .assertionFailed
  | .int32 => do
    let (i, s) ← readI32 s
    .ok ([.pyInt i], s)
  | .int64 => do
    let (b, s) ← readBytes 8 s
    match b with
    | [b0, b1, b2, b3, b4, b5, b6, b7] =>
      .ok ([.pyInt (decodeI64le b0 b1 b2 b3 b4 b5 b6 b7)], s)
    | _ => .error .assertionFailed
  | .sbyte => do
    let (b, s) ← readByte s
    .ok ([.pyInt (if b < 128 then (b : Int) else (b : Int) - 256)], s)
  | .single => .error .unmodeled
  | .timespan => .error .unmodeled
  | .datetime => .error .unmodeled
  | .uint16 => do
    let (b, s) ← readBytes 2 s
    match b with
    | [b0, b1] => .ok ([.pyInt ((b0 + b1 * 256 : Nat) : Int)], s)
    | _ => .error .assertionFailed
  | .uint32 => do
    let (b, s) ← readBytes 4 s
    match b with
    | [b0, b1, b2, b3] =>
      .ok ([.pyInt ((b0 + b1 * 2 ^ 8 + b2 * 2 ^ 16 + b3 * 2 ^ 24 : Nat) : Int)], s)
    | _ => .error .assertionFailed
  | .uint64 => do
    let (b, s) ← readBytes 8 s
    match b with
    | [b0, b1, b2, b3, b4, b5, b6, b7] =>
      .ok ([.pyInt ((b0 + b1 * 2 ^ 8 + b2 * 2 ^ 16 + b3 * 2 ^ 24 + b4 * 2 ^ 32 +
        b5 * 2 ^ 40 + b6 * 2 ^ 48 + b7 * 2 ^ 56 : Nat) : Int)], s)
    | _ => .error .assertionFailed
  | .nullT => .error .notImplemented
  | .stringT => do
    let (bs, s) ← lengthPrefixedStringReader s
    .ok ([.pyStr (asciiDecode bs)], s)

/-- The member-record handlers reachable from `_ElementValueReader`
(binary/handlers.py:956-968 lists the set keyed by code).  Codes 6
(`BinaryObjectString`), 9 (`MemberReference`), 10 (`ObjectNull`), 13 and
14 (`ObjectNullMultiple256` / `ObjectNullMultiple`) are translated; 2, 3
and 8 raise `NotImplementedError` as in the source; 1, 4 and 5 re-enter
the class-record machinery on a path no claim exercises.  An unlisted
code is `UnknownRecord` (binary/handlers.py:826-828). -/
def memberRecordDeserialize (ctx : DecodeCtxM) (code : Nat) (s : List Nat) :
    Except BinErr (List RValue × DecodeCtxM × List Nat) :=
  match code with
  | 6 => do
    let (objectId, s) ← readI32 s
    let (bs, s) ← lengthPrefixedStringReader s
    let value : RValue := .pyStr (asciiDecode bs)
    .ok ([value], { ctx with objects := alistSet ctx.objects objectId value }, s)
  | 9 => do
    let (objectId, s) ← readI32 s
    .ok ([.objectRef objectId], ctx, s)
  | 10 => .ok ([.pyNone], ctx, s)
  | 13 => do
    let (count, s) ← readByte s
    .ok (List.replicate count .pyNone, ctx, s)
  | 14 => do
    let (count, s) ← readI32 s
    .ok (List.replicate count.toNat .pyNone, ctx, s)
  | 2 => .error .notImplemented
  | 3 => .error .notImplemented
  | 8 => .error .notImplemented
  | 1 => .error .unmodeled
  | 4 => .error .unmodeled
  | 5 => .error .unmodeled
  | _ => .error (.unknownRecord code)

/-- `_ElementValueReader.read_primitive` (binary/handlers.py:834-842):
`while c > 0` read one primitive, decrementing by the number of yielded
elements.  `fuel` bounds the loop (a reader always yields one element,
so `n` iterations suffice). -/
def readPrimitiveLoop : Nat → DecodeCtxM → PrimitiveTypeM → Int → List Nat →
    Except BinErr (List RValue × DecodeCtxM × List Nat)
  | 0, _, _, _, _ => .error .fuelExhausted
  | fuel + 1, ctx, p, c, s =>
    if c > 0 then
      match untypedPrimitiveValueReader p s with
      | .error e => .error e
      | .ok (elements, s) =>
        match readPrimitiveLoop fuel ctx p (c - elements.length) s with
        | .ok (more, ctx, s) => .ok (elements ++ more, ctx, s)
        | .error e => .error e
    else .ok ([], ctx, s)

/-- `_ElementValueReader.read_system_class` / `read_class`
(binary/handlers.py:868-884): `while c > 0` read one member record via
`read_member_reference`, decrementing by the yielded count (a
multiple-null record can cover several slots at once). -/
def readMemberRefLoop : Nat → DecodeCtxM → Int → List Nat →
    Except BinErr (List RValue × DecodeCtxM × List Nat)
  | 0, _, _, _ => .error .fuelExhausted
  | fuel + 1, ctx, c, s =>
    if c > 0 then
      match readByte s with
      | .error e => .error e
      | .ok (code, s) =>
        match memberRecordDeserialize ctx code s with
        | .error e => .error e
        | .ok (elements, ctx, s) =>
          match readMemberRefLoop fuel ctx (c - elements.length) s with
          | .ok (more, ctx, s) => .ok (elements ++ more, ctx, s)
          | .error e => .error e
    else .ok ([], ctx, s)

/-- Dispatch of `_ElementValueReader.readers` for one
`(TypeInfo, cardinality)` pair (binary/handlers.py:901-916).  `String`
and `Object` slots read a single member record (the source does not loop
over `n` there); the array-typed slots raise `NotImplementedError`. -/
def elementValueReaderOne (fuel : Nat) (ctx : DecodeCtxM) (ti : TypeInfoM)
    (n : Int) (s : List Nat) :
    Except BinErr (List RValue × DecodeCtxM × List Nat) :=
  match ti.binaryType with
  | .primitive =>
    match ti.additionalInfo with
    | .primitive p => readPrimitiveLoop fuel ctx p n s
    | _ => .error .assertionFailed
  | .stringBt => do
    let (code, s) ← readByte s
    memberRecordDeserialize ctx code s
  | .object => do
    let (code, s) ← readByte s
    memberRecordDeserialize ctx code s
  | .systemClass => readMemberRefLoop fuel ctx n s
  | .classBt => readMemberRefLoop fuel ctx n s
  | .objectArray => .error .notImplemented
  | .stringArray => .error .notImplemented
  | .primitiveArray => .error .notImplemented

/-- `_ElementValueReader.__call__` (binary/handlers.py:918-925): yield
the element values of every `(TypeInfo, cardinality)` pair in order. -/
def elementValueReader (fuel : Nat) (ctx : DecodeCtxM) :
    List (TypeInfoM × Int) → List Nat →
    Except BinErr (List RValue × DecodeCtxM × List Nat)
  | [], s => .ok ([], ctx, s)
  | (ti, n) :: rest, s =>
    match elementValueReaderOne fuel ctx ti n s with
    | .error e => .error e
    | .ok (vs, ctx, s) =>
      match elementValueReader fuel ctx rest s with
      | .ok (more, ctx, s) => .ok (vs ++ more, ctx, s)
      | .error e => .error e

/-- `ClassWithIdHandler.deserialize` (binary/handlers.py:391-408): read
`object_id` and `metadata_id`, fetch the `Instance` registered at
`metadata_id` (`assert isinstance(that_object, Instance)`), read one
element value per member of its `ClassInfo`, build the clone `value`
carrying the fresh values — and then register `that_object`, the
referenced original, under `object_id` (`ctx.add_object(object_id,
that_object)`); the clone is only yielded as the produced value. -/
def classWithIdHandlerDeserialize (fuel : Nat) (ctx : DecodeCtxM) (s : List Nat) :
    Except BinErr (List RValue × Bool × DecodeCtxM × List Nat) := do
  let (b, s) ← readBytes 8 s
  match b with
  | [o0, o1, o2, o3, m0, m1, m2, m3] =>
    let objectId := decodeI32le o0 o1 o2 o3
    let metadataId := decodeI32le m0 m1 m2 m3
    match ctx.objects.lookup metadataId with
    | none => .error .keyError
    | some thatObject =>
      match thatObject with
      | .inst thatClassInfo _thatValues =>
        match elementValueReader fuel ctx
            (thatClassInfo.members.map (fun m => (m.typeInfo, 1))) s with
        | .error e => .error e
        | .ok (values, ctx, s) =>
          let value : RValue := .inst thatClassInfo (some values)
          let ctx := { ctx with objects := alistSet ctx.objects objectId thatObject }
          .ok ([value], true, ctx, s)
      | _ => .error .assertionFailed
  | _ => .error .assertionFailed

/-! ## NRBF→CLI bridge (binary/bridge.py)

The bridge lowers the decoded intermediate graph to CLI values.  Its
state gathers the CLI object stores (`CLIType`s and resolution contexts
with their id counters), the three caches, the namespace cache and the
`object_id → Value` table of `Bridge.__init__`
(binary/bridge.py:520-564). -/

/-- `LibraryInfo` (binary/models.py). -/
structure LibraryInfoM where
  name : String
  version : String
  culture : String
  publicKeyToken : Option String
  deriving Repr, DecidableEq

/-- `ParametrizedClassInfo` (binary/bridge.py:123-127).  In the source
`parameters` is a sequence of nested `ParametrizedClassInfo`s; the
embedding covers class names without bracketed parameter lists — every
class name a claim exercises — so only the count of parameters (always
zero from the modelled parser) is kept. -/
structure PCIM where
  name : String
  parameterCount : Nat
  library : Option LibraryInfoM
  deriving Repr, DecidableEq

mutual

/-- `CLIValue` (cli/models.py:553-592) as the bridge builds it:
`CLIBasicValue` or `CLICompositeObject` (`CLINullValue` is never
constructed on a bridge path). -/
inductive CLIValueM where
  | basic (ti : InstRef) (value : PyPayload)
  | composite (ti : InstRef) (members : List CLIValueM)

/-- The Python payloads a `CLIBasicValue` built by the bridge carries:
`None`, the scalar primitives, or the element list of an `Array<T>`. -/
inductive PyPayload where
  | noneP
  | boolP (b : Bool)
  | intP (i : Int)
  | strP (s : String)
  | bytesP (bs : List Nat)
  | listP (vs : List CLIValueM)

end

/-- The state a `Bridge` instance threads: the CLI object stores, the
caches `_p_class_to_cli_type_mappings` (keyed by qualified name, library
and arity), `_p_class_to_cli_type_instance_mappings`, `_array_types`
(keyed by `(id(elem_type), 0)` — the instance identity is its
`(ctxId, derivedFrom)` pair), `_namespaces`, and `_objects`. -/
structure BridgeState where
  types : List (Nat × TypeNode)
  ctxs : List (Nat × ResolutionCtx)
  nextTypeId : Nat
  nextCtxId : Nat
  pClassToType : List ((String × Option LibraryInfoM × Nat) × Nat)
  pClassToTi : List (PCIM × InstRef)
  arrayTypes : List (((Nat × Nat) × Nat) × InstRef)
  namespaces : List (String × CLINamespace)
  objects : List (Int × CLIValueM)

/-! ### Builtins (cli/builtins.py)

`Bridge.__init__` builds a fresh `Builtins(CLITypeResolutionContext())`.
The module-level `CLIType` singletons get ids 0-24; every
`CLITypeInstance` the `Builtins` constructor creates lives in context 0
(`CLITypeInstance(ctx, TYPE)` attaches the shared builtins context
without touching it); `SYSTEM_BYTE_ARRAY = array_of(SYSTEM_BYTE)` is
`ARRAY_TYPE.instantiate([byte])`, which allocates the partial type 25
and the fresh context 1. -/

def SYSTEM_BOOLEAN_tid : Nat := 0
def SYSTEM_CHAR_tid : Nat := 1
def SYSTEM_STRING_tid : Nat := 2
def SYSTEM_SINGLE_tid : Nat := 3
def SYSTEM_DOUBLE_tid : Nat := 4
def SYSTEM_SBYTE_tid : Nat := 5
def SYSTEM_INT16_tid : Nat := 6
def SYSTEM_INT32_tid : Nat := 7
def SYSTEM_INT64_tid : Nat := 8
def SYSTEM_UINT64_tid : Nat := 9
def SYSTEM_INTPTR_tid : Nat := 10
def SYSTEM_UINTPTR_tid : Nat := 11
def SYSTEM_BYTE_tid : Nat := 12
def SYSTEM_UINT16_tid : Nat := 13
def SYSTEM_UINT32_tid : Nat := 14
def SYSTEM_OBJECT_tid : Nat := 15
def SYSTEM_COLLECTIONS_ARRAYLIST_tid : Nat := 16
def SYSTEM_COLLECTIONS_DICTIONARY_tid : Nat := 17
def SYSTEM_COLLECTIONS_GENERIC_LIST_tid : Nat := 18
def SYSTEM_COLLECTIONS_GENERIC_DICTIONARY_tid : Nat := 19
def SYSTEM_COLLECTIONS_GENERIC_KEYVALUEPAIR_tid : Nat := 20
def SYSTEM_DATETIME_tid : Nat := 21
def SYSTEM_TIMESPAN_tid : Nat := 22
def SYSTEM_DECIMAL_tid : Nat := 23
def ARRAY_TYPE_tid : Nat := 24
def BYTE_ARRAY_PARTIAL_tid : Nat := 25

/-- A plain intrinsic builtin with no parameters and no members. -/
def mkIntrinsicNode (name : String) (ns : CLINamespace) : TypeNode :=
  { name := name, nspace := ns, parameters := [], resolvedParameters := [],
    intrinsic := true, members := [], derivedFrom := none, memberHandler := false }

/-- The module-level `CLIType` objects (cli/builtins.py:24-83,
cli/models.py:599-604) plus the byte-array partial created by
`Builtins.__init__`. -/
def builtinTypes : List (Nat × TypeNode) :=
  [(SYSTEM_BOOLEAN_tid, mkIntrinsicNode "Boolean" SYSTEM_NAMESPACE),
   (SYSTEM_CHAR_tid, mkIntrinsicNode "Char" SYSTEM_NAMESPACE),
   (SYSTEM_STRING_tid, mkIntrinsicNode "String" SYSTEM_NAMESPACE),
   (SYSTEM_SINGLE_tid, mkIntrinsicNode "Single" SYSTEM_NAMESPACE),
   (SYSTEM_DOUBLE_tid, mkIntrinsicNode "Double" SYSTEM_NAMESPACE),
   (SYSTEM_SBYTE_tid, mkIntrinsicNode "SByte" SYSTEM_NAMESPACE),
   (SYSTEM_INT16_tid, mkIntrinsicNode "Int16" SYSTEM_NAMESPACE),
   (SYSTEM_INT32_tid, mkIntrinsicNode "Int32" SYSTEM_NAMESPACE),
   (SYSTEM_INT64_tid, mkIntrinsicNode "Int64" SYSTEM_NAMESPACE),
   (SYSTEM_UINT64_tid, mkIntrinsicNode "UInt64" SYSTEM_NAMESPACE),
   (SYSTEM_INTPTR_tid, mkIntrinsicNode "IntPtr" SYSTEM_NAMESPACE),
   (SYSTEM_UINTPTR_tid, mkIntrinsicNode "UIntPtr" SYSTEM_NAMESPACE),
   (SYSTEM_BYTE_tid, mkIntrinsicNode "Byte" SYSTEM_NAMESPACE),
   (SYSTEM_UINT16_tid, mkIntrinsicNode "UInt16" SYSTEM_NAMESPACE),
   (SYSTEM_UINT32_tid, mkIntrinsicNode "UInt32" SYSTEM_NAMESPACE),
   (SYSTEM_OBJECT_tid, mkIntrinsicNode "Object" SYSTEM_NAMESPACE),
   (SYSTEM_COLLECTIONS_ARRAYLIST_tid,
     mkIntrinsicNode "ArrayList" SYSTEM_COLLECTIONS_NAMESPACE),
   (SYSTEM_COLLECTIONS_DICTIONARY_tid,
     mkIntrinsicNode "Dictionary" SYSTEM_COLLECTIONS_NAMESPACE),
   (SYSTEM_COLLECTIONS_GENERIC_LIST_tid,
     { name := "List", nspace := SYSTEM_COLLECTIONS_GENERIC_NAMESPACE,
       parameters := ["T"], resolvedParameters := [none], intrinsic := true,
       members := [], derivedFrom := none, memberHandler := false }),
   (SYSTEM_COLLECTIONS_GENERIC_DICTIONARY_tid,
     { name := "Dictionary", nspace := SYSTEM_COLLECTIONS_GENERIC_NAMESPACE,
       parameters := ["TKey", "TValue"], resolvedParameters := [none, none],
       intrinsic := true, members := [], derivedFrom := none,
       memberHandler := false }),
   (SYSTEM_COLLECTIONS_GENERIC_KEYVALUEPAIR_tid,
     { name := "KeyValuePair", nspace := SYSTEM_COLLECTIONS_GENERIC_NAMESPACE,
       parameters := ["TKey", "TValue"], resolvedParameters := [none, none],
       intrinsic := true,
       members := [("Key", .binding "TKey"), ("Value", .binding "TValue")],
       derivedFrom := none, memberHandler := true }),
   (SYSTEM_DATETIME_tid, mkIntrinsicNode "DateTime" SYSTEM_NAMESPACE),
   (SYSTEM_TIMESPAN_tid, mkIntrinsicNode "TimeSpan" SYSTEM_NAMESPACE),
   (SYSTEM_DECIMAL_tid, mkIntrinsicNode "Decimal" SYSTEM_NAMESPACE),
   (ARRAY_TYPE_tid,
     { name := "Array", nspace := INTERNAL_NAMESPACE, parameters := ["T"],
       resolvedParameters := [none], intrinsic := true, members := [],
       derivedFrom := none, memberHandler := false }),
   (BYTE_ARRAY_PARTIAL_tid,
     { name := "Array", nspace := INTERNAL_NAMESPACE, parameters := ["T"],
       resolvedParameters := [some (.inst ⟨0, SYSTEM_BYTE_tid⟩)],
       intrinsic := true, members := [], derivedFrom := some ARRAY_TYPE_tid,
       memberHandler := false })]

def SYSTEM_BOOLEAN_inst : InstRef := ⟨0, SYSTEM_BOOLEAN_tid⟩
def SYSTEM_CHAR_inst : InstRef := ⟨0, SYSTEM_CHAR_tid⟩
def SYSTEM_STRING_inst : InstRef := ⟨0, SYSTEM_STRING_tid⟩
def SYSTEM_SINGLE_inst : InstRef := ⟨0, SYSTEM_SINGLE_tid⟩
def SYSTEM_DOUBLE_inst : InstRef := ⟨0, SYSTEM_DOUBLE_tid⟩
def SYSTEM_SBYTE_inst : InstRef := ⟨0, SYSTEM_SBYTE_tid⟩
def SYSTEM_INT16_inst : InstRef := ⟨0, SYSTEM_INT16_tid⟩
def SYSTEM_INT32_inst : InstRef := ⟨0, SYSTEM_INT32_tid⟩
def SYSTEM_INT64_inst : InstRef := ⟨0, SYSTEM_INT64_tid⟩
def SYSTEM_UINT64_inst : InstRef := ⟨0, SYSTEM_UINT64_tid⟩
def SYSTEM_BYTE_inst : InstRef := ⟨0, SYSTEM_BYTE_tid⟩
def SYSTEM_UINT16_inst : InstRef := ⟨0, SYSTEM_UINT16_tid⟩
def SYSTEM_UINT32_inst : InstRef := ⟨0, SYSTEM_UINT32_tid⟩
def SYSTEM_OBJECT_inst : InstRef := ⟨0, SYSTEM_OBJECT_tid⟩
def SYSTEM_COLLECTIONS_ARRAYLIST_inst : InstRef :=
  ⟨0, SYSTEM_COLLECTIONS_ARRAYLIST_tid⟩
def SYSTEM_COLLECTIONS_DICTIONARY_inst : InstRef :=
  ⟨0, SYSTEM_COLLECTIONS_DICTIONARY_tid⟩
def SYSTEM_DATETIME_inst : InstRef := ⟨0, SYSTEM_DATETIME_tid⟩
def SYSTEM_TIMESPAN_inst : InstRef := ⟨0, SYSTEM_TIMESPAN_tid⟩
def SYSTEM_DECIMAL_inst : InstRef := ⟨0, SYSTEM_DECIMAL_tid⟩
def SYSTEM_BYTE_ARRAY_inst : InstRef := ⟨1, BYTE_ARRAY_PARTIAL_tid⟩

/-- The bridge state right after `Bridge.__init__`
(binary/bridge.py:520-564): the builtins stores, the three seeded
caches and the seeded namespace table, with empty `_array_types` and
`_objects`. -/
def bridgeInitialState : BridgeState :=
  { types := builtinTypes,
    ctxs :=
      [(0, { resolved := [], refs := [], reprs := [] }),
       (1, { resolved := [(BYTE_ARRAY_PARTIAL_tid, SYSTEM_BYTE_ARRAY_inst)],
             refs := [("T", SYSTEM_BYTE_inst)], reprs := [] })],
    nextTypeId := 26,
    nextCtxId := 2,
    pClassToType :=
      [(("System.Collections.Generic.List", none, 1),
        SYSTEM_COLLECTIONS_GENERIC_LIST_tid),
       (("System.Collections.Generic.Dictionary", none, 2),
        SYSTEM_COLLECTIONS_GENERIC_DICTIONARY_tid),
       (("System.Collections.Generic.KeyValuePair", none, 2),
        SYSTEM_COLLECTIONS_GENERIC_KEYVALUEPAIR_tid)],
    pClassToTi :=
      [(⟨"System.Collections.ArrayList", 0, none⟩, SYSTEM_COLLECTIONS_ARRAYLIST_inst),
       (⟨"System.Collections.Dictionary", 0, none⟩, SYSTEM_COLLECTIONS_DICTIONARY_inst),
       (⟨"System.Object", 0, none⟩, SYSTEM_OBJECT_inst),
       (⟨"System.String", 0, none⟩, SYSTEM_STRING_inst)],
    arrayTypes := [],
    namespaces :=
      [("", ROOT_NAMESPACE),
       ("System", SYSTEM_NAMESPACE),
       ("System.Collections", SYSTEM_COLLECTIONS_NAMESPACE),
       ("System.Collections.Generic", SYSTEM_COLLECTIONS_GENERIC_NAMESPACE)],
    objects := [] }

/-- `_primitive_type_to_cli_type_instance_builtin_mappings`
(binary/bridge.py:538-556): `NULL` maps to `SYSTEM_OBJECT`. -/
def primitiveBuiltinInst : PrimitiveTypeM → InstRef
  | .boolean => SYSTEM_BOOLEAN_inst
  | .byte => SYSTEM_BYTE_inst
  | .char => SYSTEM_CHAR_inst
  | .datetime => SYSTEM_DATETIME_inst
  | .decimalT => SYSTEM_DECIMAL_inst
  | .double => SYSTEM_DOUBLE_inst
  | .int16 => SYSTEM_INT16_inst
  | .int32 => SYSTEM_INT32_inst
  | .int64 => SYSTEM_INT64_inst
  | .nullT => SYSTEM_OBJECT_inst
  | .sbyte => SYSTEM_SBYTE_inst
  | .single => SYSTEM_SINGLE_inst
  | .stringT => SYSTEM_STRING_inst
  | .timespan => SYSTEM_TIMESPAN_inst
  | .uint16 => SYSTEM_UINT16_inst
  | .uint32 => SYSTEM_UINT32_inst
  | .uint64 => SYSTEM_UINT64_inst

/-! ### Class-name parsing and namespace lookup -/

/-- `parse_class_name` (binary/bridge.py:264-266).  The tokenizer and
recursive-descent pipeline is modelled on the fragment the claims
exercise: a plain qualified name — no whitespace, comma, bracket, or
arity suffix (a backtick, character code 96) — parses to
`ParametrizedClassInfo(name, (), None)`.  The bracketed generic and
library-qualified forms are outside every claim. -/
def parseClassName (value : String) : Except BinErr PCIM :=
  if value.data.any (fun c =>
      c = '[' ∨ c = ']' ∨ c = ',' ∨ c = ' ' ∨ c = '\t' ∨ c.toNat = 96) then
    .error .unmodeled
  else
    .ok ⟨value, 0, none⟩

/-- The split around the last `'.'` of the character list: `some` of the
parts before and after it, `none` when no dot occurs. -/
def rpartAux : List Char → Option (List Char × List Char)
  | [] => none
  | c :: rest =>
    match rpartAux rest with
    | some (b, a) => some (c :: b, a)
    | none => if c = '.' then some ([], rest) else none

/-- Python `str.rpartition(".")`: `(head, sep, tail)`, which is
`("", "", s)` when `s` has no dot. -/
def pyRPartitionDot (s : String) : String × String × String :=
  match rpartAux s.data with
  | some (b, a) => (String.mk b, ".", String.mk a)
  | none => ("", "", s)

/-- `split_into_namespace_and_name` (binary/bridge.py:269-278).  With no
separator, `rpartition` leaves the first component empty, so a dotless
name always raises `BridgeError`. -/
def splitIntoNamespaceAndName (qualifiedName : String) :
    Except BinErr (String × String) :=
  let (namespaceOrName, sep, name) := pyRPartitionDot qualifiedName
  if sep = "" then
    if namespaceOrName = "" then .error (.bridgeError "invalid qualified type name")
    else .ok ("", namespaceOrName)
  else
    if name = "" then .error (.bridgeError "invalid qualified type name")
    else .ok (namespaceOrName, name)

/-- `Bridge._lookup_namespace` (binary/bridge.py:298-307): cached; on a
miss, recurse on the part before the last dot and wrap a new
`CLINamespace`.  (The source's `if sep is None` arm is unreachable:
`rpartition` returns `""`, never `None`.)  Each level strips at least
one character, so `length + 1` fuel always suffices. -/
def lookupNamespaceFuel : Nat → BridgeState → String →
    Except BinErr (CLINamespace × BridgeState)
  | 0, _, _ => .error .fuelExhausted
  | fuel + 1, st, ns =>
    match st.namespaces.lookup ns with
    | some r => .ok (r, st)
    | none =>
      let (parent, _sep, name) := pyRPartitionDot ns
      match lookupNamespaceFuel fuel st parent with
      | .error e => .error e
      | .ok (p, st) =>
        let r := CLINamespace.child name p
        .ok (r, { st with namespaces := alistSet st.namespaces ns r })

def lookupNamespace (st : BridgeState) (ns : String) :
    Except BinErr (CLINamespace × BridgeState) :=
  lookupNamespaceFuel (ns.length + 1) st ns

/-! ### `CLIType` partial application, resolution and instantiation
(cli/models.py:202-309) -/

/-- `CLITypeResolvable.resolve` during `CLIType.resolve`'s parameter
loop: a `CLITypeBinding` reads `ctx.refs` (raising for an unbound
parameter), a `CLITypeInstance` returns itself. -/
def resolvableResolve (refs : List (String × InstRef)) :
    Resolvable → Except BinErr InstRef
  | .inst i => .ok i
  | .binding ref =>
    match refs.lookup ref with
    | some p => .ok p
    | none => .error (.bridgeError "type parameter is unbound")

/-- The parameter loop of `CLIType.resolve` (cli/models.py:207-210):
`ctx.refs[param] = resolvable.resolve(ctx)` in ordinal order, raising on
an unresolved (`None`) slot. -/
def buildRefsLoop (refs : List (String × InstRef)) :
    List (String × Option Resolvable) →
    Except BinErr (List (String × InstRef))
  | [] => .ok refs
  | (_, none) :: _ => .error (.bridgeError "the type has unresolved parameters")
  | (p, some r) :: rest =>
    match resolvableResolve refs r with
    | .error e => .error e
    | .ok i => buildRefsLoop (alistSet refs p i) rest

/-- `CLIType.resolve` on a fresh `CLITypeResolutionContext`
(cli/models.py:202-216), the only form the bridge paths use
(`instantiate` always passes a fresh context, whose `resolved` cache is
necessarily empty): populate `refs`, allocate the context, intern the
new `CLITypeInstance` under `id(self)`. -/
def cliTypeResolveFresh (st : BridgeState) (tid : Nat) :
    Except BinErr (InstRef × BridgeState) :=
  match st.types.lookup tid with
  | none => .error .keyError
  | some t =>
    match buildRefsLoop [] (t.parameters.zip t.resolvedParameters) with
    | .error e => .error e
    | .ok refs =>
      let cid := st.nextCtxId
      let instRef : InstRef := ⟨cid, tid⟩
      let ctx : ResolutionCtx :=
        { resolved := [(tid, instRef)], refs := refs, reprs := [] }
      .ok (instRef,
        { st with ctxs := alistSet st.ctxs cid ctx, nextCtxId := cid + 1 })

/-- The slot merge of `CLIType.partial` for a mapping argument
(cli/models.py:226-236): an already-resolved slot must not also be
supplied (`AlreadyBound`), an open slot takes the supplied expression
(or stays open). -/
def newResolvedMapping (mapping : List (String × Resolvable)) :
    List (String × Option Resolvable) →
    Except BinErr (List (Option Resolvable))
  | [] => .ok []
  | (p, slot) :: rest =>
    let supplied := mapping.lookup p
    match slot with
    | none =>
      match newResolvedMapping mapping rest with
      | .ok ns => .ok (supplied :: ns)
      | .error e => .error e
    | some r =>
      match supplied with
      | none =>
        match newResolvedMapping mapping rest with
        | .ok ns => .ok (some r :: ns)
        | .error e => .error e
      | some _ => .error (.bridgeError "the type already has a value for the parameter")

/-- The slot merge of `CLIType.partial` for a positional argument
(cli/models.py:240-251), `zip_longest` filling missing positions with
`None`. -/
def newResolvedPositional :
    List (Option Resolvable) → List Resolvable →
    Except BinErr (List (Option Resolvable))
  | [], _ => .ok []
  | slot :: rest, [] =>
    match newResolvedPositional rest [] with
    | .ok ns => .ok (slot :: ns)
    | .error e => .error e
  | slot :: rest, p :: ps =>
    match slot with
    | none =>
      match newResolvedPositional rest ps with
      | .ok ns => .ok (some p :: ns)
      | .error e => .error e
    | some _ => .error (.bridgeError "the type already has a value for the parameter")

/-- Allocate the new `CLIType` object `partial` returns
(cli/models.py:253-257): same name, namespace, parameters and members,
the merged resolved slots, `derived_from = self`. -/
def allocPartialNode (st : BridgeState) (tid : Nat)
    (newResolved : List (Option Resolvable)) : Except BinErr (Nat × BridgeState) :=
  match st.types.lookup tid with
  | none => .error .keyError
  | some t =>
    let node := { t with resolvedParameters := newResolved, derivedFrom := some tid }
    let tid2 := st.nextTypeId
    .ok (tid2,
      { st with types := alistSet st.types tid2 node, nextTypeId := tid2 + 1 })

/-- `CLIType.instantiate(mapping)` (cli/models.py:303-309):
`partial(mapping).resolve(CLITypeResolutionContext())`. -/
def typeInstantiateMapping (st : BridgeState) (tid : Nat)
    (mapping : List (String × Resolvable)) :
    Except BinErr (InstRef × BridgeState) :=
  match st.types.lookup tid with
  | none => .error .keyError
  | some t =>
    match newResolvedMapping mapping (t.parameters.zip t.resolvedParameters) with
    | .error e => .error e
    | .ok newResolved =>
      match allocPartialNode st tid newResolved with
      | .error e => .error e
      | .ok (tid2, st) => cliTypeResolveFresh st tid2

/-- `CLIType.instantiate([...])` with a positional collection
(cli/models.py:237-251, 303-309), as `ARRAY_TYPE.instantiate([elem])`
uses it. -/
def typeInstantiatePositional (st : BridgeState) (tid : Nat)
    (supplied : List Resolvable) : Except BinErr (InstRef × BridgeState) :=
  match st.types.lookup tid with
  | none => .error .keyError
  | some t =>
    if supplied.length > t.parameters.length then
      .error (.bridgeError "expected at most as many parameters as the type declares")
    else
      match newResolvedPositional t.resolvedParameters supplied with
      | .error e => .error e
      | .ok newResolved =>
        match allocPartialNode st tid newResolved with
        | .error e => .error e
        | .ok (tid2, st) => cliTypeResolveFresh st tid2

/-! ### `CLITypeInstance.instantiate` (cli/models.py:510-536) -/

/-- `self[name].ordinal` resolution and the stable `sorted(...,
key=ordinal)` of a member dict (cli/models.py:518-521): pair each entry
with the ordinal of its member (a missing name raises `KeyError`),
insertion-sort stably, and keep the values. -/
def ordinalsOf (t : TypeNode) :
    List (String × CLIValueM) → Except BinErr (List (Nat × CLIValueM))
  | [] => .ok []
  | (k, v) :: rest =>
    match t.members.findIdx? (fun m => m.1 == k) with
    | none => .error .keyError
    | some o =>
      match ordinalsOf t rest with
      | .ok ps => .ok ((o, v) :: ps)
      | .error e => .error e

/-- Stable insertion of one keyed entry, later equals after earlier. -/
def insertOrd (acc : List (Nat × CLIValueM)) (p : Nat × CLIValueM) :
    List (Nat × CLIValueM) :=
  match acc with
  | [] => [p]
  | q :: rest => if q.1 ≤ p.1 then q :: insertOrd rest p else p :: q :: rest

/-- Stable sort by ordinal, as Python's `sorted` guarantees. -/
def sortByOrdinal (l : List (Nat × CLIValueM)) : List (Nat × CLIValueM) :=
  l.foldl insertOrd []

/-- `CLITypeInstance.instantiate(value, member_values, member_dict)`
(cli/models.py:510-536).  A member dict is converted to positional
values sorted by ordinal (only when the type has members, as in the
source); supplying both forms raises; an intrinsic type with non-empty
member values needs a `member_handler` (the only source handler is
`KeyValuePair`'s, on a path no claim exercises); otherwise an intrinsic
yields `CLIBasicValue(self, value)` and a non-intrinsic a
`CLICompositeObject` whose arity `__post_init__` checks. -/
def tiInstantiate (st : BridgeState) (ti : InstRef) (value : Option PyPayload)
    (memberValues : Option (List CLIValueM))
    (memberDict : Option (List (String × CLIValueM))) :
    Except BinErr CLIValueM :=
  match st.types.lookup ti.derivedFrom with
  | none => .error .keyError
  | some t =>
    let memberValuesE : Except BinErr (Option (List CLIValueM)) :=
      match memberValues with
      | none =>
        if ¬t.members.isEmpty then
          match memberDict with
          | some d =>
            match ordinalsOf t d with
            | .ok ps => .ok (some ((sortByOrdinal ps).map (·.2)))
            | .error e => .error e
          | none => .ok none
        else .ok none
      | some vs =>
        match memberDict with
        | some _ =>
          .error (.bridgeError
            "cannot specify member_values and member_dict at the same time")
        | none => .ok (some vs)
    match memberValuesE with
    | .error e => .error e
    | .ok memberValues =>
      if t.intrinsic then
        match memberValues with
        | some (_ :: _) =>
          if t.memberHandler then .error .unmodeled
          else .error (.bridgeError "an intrinsic type needs a member_handler")
        | _ => .ok (.basic ti (value.getD .noneP))
      else
        match memberValues with
        | none =>
          if ¬t.members.isEmpty then
            .error (.bridgeError "either member_values or member_dict must be specified")
          else .ok (.composite ti [])
        | some vs =>
          if vs.length ≠ t.members.length then
            .error (.bridgeError "given values does not match to the member count")
          else .ok (.composite ti vs)

/-! ### Type-info and class-info resolution (binary/bridge.py:309-426)

`_get_cli_type_instance_for_parametrized_class_info`,
`_get_cli_type_instance_for_type_info` and `_build_cli_type_members`
recurse into one another (a member's type info may name another class);
the combined function below recurses structurally on `depth` so that
concrete runs reduce.  The chain for a class with already-known member
shapes is short: class info → member list → member type info → plain
class info with no members; `typeResDepth` bounds it together with the
member-list length. -/

/-- Argument of a type-resolution step. -/
inductive TypeResArg where
  | pci (p : PCIM) (members : List MemberInfoM)
  | tinfo (info : TypeInfoM)
  | mems (members : List MemberInfoM)

/-- Result of a type-resolution step. -/
inductive TypeResOut where
  | ti (i : InstRef)
  | resolvables (rs : List (String × Resolvable))

/-- One combined function for the mutually recursive type-resolution
trio of the bridge.

* `.pci` is `_get_cli_type_instance_for_parametrized_class_info`
  (binary/bridge.py:321-367): instance-cache lookup; type-cache lookup
  keyed by `(name, library, arity)`; on a miss create the `CLIType`
  (namespace from the qualified-name split, synthetic `T1…Tn`
  parameters, members built from the NRBF member list); on a hit upgrade
  a member-less non-intrinsic type when members are now supplied
  (`replace` allocates a new object, the cache is repointed); check that
  the open-slot count equals the supplied arity
  (`BridgeError` otherwise); instantiate binding the open parameters —
  the modelled parser always yields arity 0, so the binding map is
  empty — and cache the instance.
* `.tinfo` is `_get_cli_type_instance_for_type_info`
  (binary/bridge.py:381-396): `Primitive` through the builtin table,
  `String`/`Object` to the builtin instances, `SystemClass` through the
  class-name parser, anything else `NotImplementedError`.  The `Class`
  arm resolves a library id through the property-dict parser on a path
  no claim exercises.
* `.mems` is `_build_cli_type_members` (binary/bridge.py:309-319). -/
def typeResStep : Nat → BridgeState → TypeResArg →
    Except BinErr (TypeResOut × BridgeState)
  | 0, _, _ => .error .fuelExhausted
  | depth + 1, st, arg =>
    match arg with
    | .pci p members =>
      match st.pClassToTi.lookup p with
      | some ti => .ok (.ti ti, st)
      | none =>
        let tKey := (p.name, p.library, p.parameterCount)
        match ((match st.pClassToType.lookup tKey with
          | none =>
            match splitIntoNamespaceAndName p.name with
            | .error e => .error e
            | .ok (nsName, name) =>
              match lookupNamespace st nsName with
              | .error e => .error e
              | .ok (ns, st) =>
                match typeResStep depth st (.mems members) with
                | .error e => .error e
                | .ok (.resolvables mems, st) =>
                  let node : TypeNode :=
                    { name := name, nspace := ns,
                      parameters := (List.range p.parameterCount).map
                        (fun n => "T" ++ toString (n + 1)),
                      resolvedParameters := List.replicate p.parameterCount none,
                      intrinsic := false, members := mems,
                      derivedFrom := none, memberHandler := false }
                  let tid := st.nextTypeId
                  .ok (tid,
                    { st with
                      types := alistSet st.types tid node
                      nextTypeId := tid + 1
                      pClassToType := alistSet st.pClassToType tKey tid })
                | .ok _ => .error .assertionFailed
          | some tid =>
            match st.types.lookup tid with
            | none => .error .keyError
            | some t =>
              if ¬t.intrinsic ∧ t.members.isEmpty ∧ ¬members.isEmpty then
                match typeResStep depth st (.mems members) with
                | .error e => .error e
                | .ok (.resolvables mems, st) =>
                  let node := { t with members := mems }
                  let tid2 := st.nextTypeId
                  .ok (tid2,
                    { st with
                      types := alistSet st.types tid2 node
                      nextTypeId := tid2 + 1
                      pClassToType := alistSet st.pClassToType tKey tid2 })
                | .ok _ => .error .assertionFailed
              else .ok (tid, st)) : Except BinErr (Nat × BridgeState)) with
        | .error e => .error e
        | .ok (tid, st) =>
          match st.types.lookup tid with
          | none => .error .keyError
          | some t =>
            let unknownCount :=
              ((t.parameters.zip t.resolvedParameters).filter
                (fun pr => pr.2 = none)).length
            if unknownCount ≠ p.parameterCount then
              .error (.bridgeError "invalid number of type parameters")
            else
              match typeInstantiateMapping st tid [] with
              | .error e => .error e
              | .ok (ti, st) =>
                .ok (.ti ti, { st with pClassToTi := alistSet st.pClassToTi p ti })
    | .tinfo info =>
      match info.binaryType with
      | .primitive =>
        match info.additionalInfo with
        | .primitive prim => .ok (.ti (primitiveBuiltinInst prim), st)
        | _ => .error .assertionFailed
      | .stringBt => .ok (.ti SYSTEM_STRING_inst, st)
      | .classBt => .error .unmodeled
      | .systemClass =>
        match info.additionalInfo with
        | .str name =>
          match parseClassName name with
          | .error e => .error e
          | .ok p => typeResStep depth st (.pci p [])
        | _ => .error .assertionFailed
      | .object => .ok (.ti SYSTEM_OBJECT_inst, st)
      | _ => .error .notImplemented
    | .mems members =>
      match members with
      | [] => .ok (.resolvables [], st)
      | mi :: rest =>
        match typeResStep depth st (.tinfo mi.typeInfo) with
        | .error e => .error e
        | .ok (.ti i, st) =>
          match typeResStep depth st (.mems rest) with
          | .ok (.resolvables rs, st) =>
            .ok (.resolvables ((mi.name, .inst i) :: rs), st)
          | .ok _ => .error .assertionFailed
          | .error e => .error e
        | .ok _ => .error .assertionFailed

/-- Ample depth for `typeResStep`: the call chains above are bounded by
the member-list length plus a small constant. -/
def typeResDepth (members : List MemberInfoM) : Nat := members.length + 8

/-- `_get_cli_type_instance_for_class_info` (binary/bridge.py:369-379).
A non-`None` `library_id` is resolved through the library table and the
property-dict parser, a path no claim exercises. -/
def getCliTypeInstanceForClassInfo (st : BridgeState) (info : ClassInfoM) :
    Except BinErr (InstRef × BridgeState) :=
  match info.libraryId with
  | some _ => .error .unmodeled
  | none =>
    match parseClassName info.name with
    | .error e => .error e
    | .ok pci =>
      match typeResStep (typeResDepth info.members) st (.pci pci info.members) with
      | .ok (.ti i, st) => .ok (i, st)
      | .ok _ => .error .assertionFailed
      | .error e => .error e

/-- `_get_array_type` (binary/bridge.py:398-405): cached by
`(id(elem_type), 0)` — the second key component is the literal `0`, not
the depth; on a miss, `ARRAY_TYPE.instantiate([elem_type])`. -/
def getArrayType (st : BridgeState) (elemType : InstRef) (_depth : Nat) :
    Except BinErr (InstRef × BridgeState) :=
  let atKey := ((elemType.ctxId, elemType.derivedFrom), 0)
  match st.arrayTypes.lookup atKey with
  | some ti => .ok (ti, st)
  | none =>
    match typeInstantiatePositional st ARRAY_TYPE_tid [.inst elemType] with
    | .error e => .error e
    | .ok (ti, st) =>
      .ok (ti, { st with arrayTypes := alistSet st.arrayTypes atKey ti })

/-- `_get_cli_type_instance_for_array_info` (binary/bridge.py:407-414):
only `BinaryArrayType.SINGLE` with a one-dimensional shape is
supported; the element type comes from the trailing `TypeInfo`. -/
def getCliTypeInstanceForArrayInfo (st : BridgeState) (info : ArrayInfoM) :
    Except BinErr (InstRef × BridgeState) :=
  if info.type ≠ some .single then .error .notImplemented
  else if info.shape.length ≠ 1 then .error .notImplemented
  else
    match info.typeInfo with
    | none => .error .assertionFailed
    | some tinfo =>
      match typeResStep (typeResDepth []) st (.tinfo tinfo) with
      | .ok (.ti elemType, st) => getArrayType st elemType 0
      | .ok _ => .error .assertionFailed
      | .error e => .error e

/-- `Builtins.from_python_value` (cli/builtins.py:112-130): the branches
test, in order, `None`, `int`, `float`, `str`, `Decimal`, `datetime`,
`timedelta`, `bytes`, else `TypeError`.  `bool` is a subtype of `int` in
Python, so a `bool` lands in the `int` branch:
`SYSTEM_INT32.instantiate(v)` with the bool itself as payload.  (The
`float`/`Decimal`/`datetime`/`timedelta` values lie outside the
embedding's value universe; the non-scalar intermediate constructors
never reach this function and raise `TypeError` as a Python object of an
unhandled type would.) -/
def fromPythonValue (st : BridgeState) (v : RValue) : Except BinErr CLIValueM :=
  match v with
  | .pyNone => tiInstantiate st SYSTEM_OBJECT_inst none none none
  | .pyBool b => tiInstantiate st SYSTEM_INT32_inst (some (.boolP b)) none none
  | .pyInt i => tiInstantiate st SYSTEM_INT32_inst (some (.intP i)) none none
  | .pyStr s => tiInstantiate st SYSTEM_STRING_inst (some (.strP s)) none none
  | .pyBytes bs => tiInstantiate st SYSTEM_BYTE_ARRAY_inst (some (.bytesP bs)) none none
  | _ => .error .typeError

/-- The member-dict comprehension of `_convert_value`
(binary/bridge.py:477-481): `{mi.name: convert(v) for mi, v in
zip(class_info.members, values)}`, converting left to right and
inserting with dict semantics.  `convF` is the recursive conversion at
the already-decremented fuel. -/
def convertMembers
    (convF : BridgeState → RValue → Except BinErr (CLIValueM × BridgeState)) :
    BridgeState → List (String × CLIValueM) → List MemberInfoM → List RValue →
    Except BinErr (List (String × CLIValueM) × BridgeState)
  | st, acc, [], _ => .ok (acc, st)
  | st, acc, _, [] => .ok (acc, st)
  | st, acc, mi :: ms, v :: vs =>
    match convF st v with
    | .error e => .error e
    | .ok (cv, st) => convertMembers convF st (alistSet acc mi.name cv) ms vs

/-- The element-list comprehension of `_convert_value`'s array arm
(binary/bridge.py:493). -/
def convertElems
    (convF : BridgeState → RValue → Except BinErr (CLIValueM × BridgeState)) :
    BridgeState → List RValue → Except BinErr (List CLIValueM × BridgeState)
  | st, [] => .ok ([], st)
  | st, v :: vs =>
    match convF st v with
    | .error e => .error e
    | .ok (cv, st) =>
      match convertElems convF st vs with
      | .ok (cvs, st) => .ok (cv :: cvs, st)
      | .error e => .error e

/-- `Bridge._convert_value` (binary/bridge.py:457-504), with
`_get_value_for_object_id` (binary/bridge.py:506-510) inlined in the
`ObjectReference` arm.

* An `Instance` resolves its `ClassInfo` to a type instance; an
  intrinsic target dispatches to the container lowerings (`ArrayList`,
  `List`, `Dictionary`, `KeyValuePair` — value-reconstruction paths no
  claim exercises); otherwise the member values are converted **first**
  (the dict comprehension runs before `instantiate`) and only after the
  composite is built is it recorded under `object_id` — the
  `self._objects[object_id] = value` at binary/bridge.py:503 runs last.
* An `Array` resolves its element type, converts the elements (or
  replicates the conversion of `None`), instantiates `Array<T>` and then
  records the value.
* An `ObjectReference` returns the cached value for its id, or converts
  the intermediate at that id — again without any placeholder being
  registered first.
* Anything else goes through `Builtins.from_python_value` and is **not**
  recorded (the arm returns directly).

Fuel decreases at every recursive conversion; `.error .fuelExhausted`
for every fuel is the embedding's rendering of non-termination. -/
def convertValue : Nat → DecodeCtxM → BridgeState → RValue →
    Except BinErr (CLIValueM × BridgeState)
  | 0, _, _, _ => .error .fuelExhausted
  | fuel + 1, res, st, v =>
    match v with
    | .inst ci vals =>
      match getCliTypeInstanceForClassInfo st ci with
      | .error e => .error e
      | .ok (ti, st) =>
        match st.types.lookup ti.derivedFrom with
        | none => .error .keyError
        | some t =>
          if t.intrinsic then
            match vals with
            | none => .error (.bridgeError "the instance must have a value")
            | some _ => .error .unmodeled
          else
            match ((match vals with
              | some vs =>
                match convertMembers (convertValue fuel res) st [] ci.members vs with
                | .error e => .error e
                | .ok (mdict, st) =>
                  match tiInstantiate st ti none none (some mdict) with
                  | .ok value => .ok (value, st)
                  | .error e => .error e
              | none =>
                match tiInstantiate st ti none none none with
                | .ok value => .ok (value, st)
                | .error e => .error e) :
                Except BinErr (CLIValueM × BridgeState)) with
            | .error e => .error e
            | .ok (value, st) =>
              .ok (value, { st with objects := alistSet st.objects ci.objectId value })
    | .arr ai vals =>
      match getCliTypeInstanceForArrayInfo st ai with
      | .error e => .error e
      | .ok (ti, st) =>
        match ai.shape with
        | [] => .error .keyError
        | shape0 :: _ =>
          match ((match vals with
            | some vs =>
              if (vs.length : Int) ≠ shape0 then
                .error (.bridgeError "array element count does not match with the shape")
              else convertElems (convertValue fuel res) st vs
            | none =>
              match convertValue fuel res st .pyNone with
              | .ok (cv, st) => .ok (List.replicate shape0.toNat cv, st)
              | .error e => .error e) :
              Except BinErr (List CLIValueM × BridgeState)) with
          | .error e => .error e
          | .ok (values, st) =>
            match tiInstantiate st ti (some (.listP values)) none none with
            | .ok value =>
              .ok (value, { st with objects := alistSet st.objects ai.objectId value })
            | .error e => .error e
    | .objectRef oid =>
      match st.objects.lookup oid with
      | some v => .ok (v, st)
      | none =>
        match res.objects.lookup oid with
        | some r => convertValue fuel res st r
        | none => .error .keyError
    | v =>
      match fromPythonValue st v with
      | .ok value => .ok (value, st)
      | .error e => .error e

/-- `Bridge.__call__` (binary/bridge.py:515-518): convert the
intermediate registered under `root_id`, starting from the freshly
initialised bridge state. -/
def bridgeCall (fuel : Nat) (res : DecodeCtxM) :
    Except BinErr (CLIValueM × BridgeState) :=
  match res.rootId with
  | none => .error (.bridgeError "root_id is not specified by DeserializationContext")
  | some rid =>
    match res.objects.lookup rid with
    | some r => convertValue fuel res bridgeInitialState r
    | none => .error .keyError

/-! ## Concrete inputs for the claims -/

/-- A self-referential instance's `ClassInfo`: one member of binary type
`Object`.  Decoding the corresponding valid stream (header,
`SystemClassWithMembersAndTypes` whose member value is
`MemberReference` to its own object id, `MessageEnd`) registers exactly
this intermediate under id 1, thanks to the record layer's forward
registration. -/
def c1ClassInfo : ClassInfoM :=
  { objectId := 1, name := "Some.Name.Space.Foo",
    members := [⟨"self", ⟨.object, .noneA⟩⟩], libraryId := none }

/-- The self-referential `Instance`: its member value is an
`ObjectReference` to its own object id. -/
def c1SelfInst : RValue := .inst c1ClassInfo (some [.objectRef 1])

/-- The decode result of the self-referential stream: the object table
maps id 1 to the self-referential instance and `root_id` is 1. -/
def c1Res : DecodeCtxM := { rootId := some 1, objects := [(1, c1SelfInst)] }

/-- The bridge state right after `c1ClassInfo`'s type resolution
(extracted functionally so the fixed point is checkable by `rfl`). -/
def c1St1 : BridgeState :=
  match getCliTypeInstanceForClassInfo bridgeInitialState c1ClassInfo with
  | .ok (_, st) => st
  | .error _ => bridgeInitialState

/-- The type instance `c1ClassInfo` resolves to. -/
def c1Ti : InstRef :=
  match getCliTypeInstanceForClassInfo bridgeInitialState c1ClassInfo with
  | .ok (ti, _) => ti
  | .error _ => ⟨0, 0⟩

/-- The `ClassInfo` of the instance a `ClassWithId` record references:
one `Int32` member named `x`. -/
def c3ClassInfo : ClassInfoM :=
  { objectId := 2, name := "Some.Name.Space.Foo",
    members := [⟨"x", ⟨.primitive, .primitive .int32⟩⟩], libraryId := none }

/-- The previously registered original `Instance`, with member value
7. -/
def c3Original : RValue := .inst c3ClassInfo (some [.pyInt 7])

/-- The decode context when the `ClassWithId` record arrives: the
original is registered under id 2. -/
def c3Ctx : DecodeCtxM := { objects := [(2, c3Original)] }

/-- The payload of a `ClassWithId` record: `object_id = 3`,
`metadata_id = 2`, then the single `Int32` member value 9, all
little-endian. -/
def c3Stream : List Nat := [3, 0, 0, 0, 2, 0, 0, 0, 9, 0, 0, 0]

/-- The class info of `Foo.Bar.Foo` as the bridge sees it (no members,
no library). -/
def c6FooClassInfo : ClassInfoM :=
  { objectId := 0, name := "Foo.Bar.Foo", members := [], libraryId := none }

/-- Bridge state after resolving `Foo.Bar.Foo`. -/
def c6St1 : BridgeState :=
  match getCliTypeInstanceForClassInfo bridgeInitialState c6FooClassInfo with
  | .ok (_, st) => st
  | .error _ => bridgeInitialState

/-- The `Foo.Bar.Foo` type instance. -/
def c6FooTi : InstRef :=
  match getCliTypeInstanceForClassInfo bridgeInitialState c6FooClassInfo with
  | .ok (ti, _) => ti
  | .error _ => ⟨0, 0⟩

/-- Bridge state after
`SYSTEM_COLLECTIONS_GENERIC_DICTIONARY.instantiate({TKey: String,
TValue: Foo.Bar.Foo})`, the construction the bridge performs for a
dictionary class info. -/
def c6St2 : BridgeState :=
  match typeInstantiateMapping c6St1 SYSTEM_COLLECTIONS_GENERIC_DICTIONARY_tid
      [("TKey", .inst SYSTEM_STRING_inst), ("TValue", .inst c6FooTi)] with
  | .ok (_, st) => st
  | .error _ => c6St1

/-- The `Dictionary<String, Foo.Bar.Foo>` type instance. -/
def c6DictTi : InstRef :=
  match typeInstantiateMapping c6St1 SYSTEM_COLLECTIONS_GENERIC_DICTIONARY_tid
      [("TKey", .inst SYSTEM_STRING_inst), ("TValue", .inst c6FooTi)] with
  | .ok (ti, _) => ti
  | .error _ => ⟨0, 0⟩

/-- A type graph with one self-referential type: `T`'s single resolved
parameter is an instance of `T` itself in the same context, so
stringifying it re-enters `T` while its `reprs` entry still holds the
sentinel. -/
def c6CycTypes : List (Nat × TypeNode) :=
  [(0, { name := "T", nspace := ROOT_NAMESPACE, parameters := ["T1"],
         resolvedParameters := [some (.inst ⟨0, 0⟩)], intrinsic := false,
         members := [], derivedFrom := none, memberHandler := false })]

/-- A single fresh context. -/
def c6OneCtx : List (Nat × ResolutionCtx) :=
  [(0, { resolved := [], refs := [], reprs := [] })]

/-- A generic type with an unresolved (open) slot. -/
def c6QTypes : List (Nat × TypeNode) :=
  [(0, { name := "List", nspace := SYSTEM_COLLECTIONS_GENERIC_NAMESPACE,
         parameters := ["T"], resolvedParameters := [none], intrinsic := true,
         members := [], derivedFrom := none, memberHandler := false })]

/-- A generic type whose resolved slot is a `CLITypeBinding`, resolved
through the context's `refs` (as `KeyValuePair`'s member types are);
the binding `"T"` maps to the `Boolean` builtin instance. -/
def c6BindTypes : List (Nat × TypeNode) :=
  [(0, { name := "Wrap", nspace := ROOT_NAMESPACE, parameters := ["T"],
         resolvedParameters := [some (.binding "T")], intrinsic := false,
         members := [], derivedFrom := none, memberHandler := false }),
   (1, mkIntrinsicNode "Boolean" SYSTEM_NAMESPACE)]

/-- The context for `c6BindTypes`: `refs` binds `"T"` to the `Boolean`
instance living in the same context. -/
def c6BindCtx : List (Nat × ResolutionCtx) :=
  [(0, { resolved := [], refs := [("T", ⟨0, 1⟩)], reprs := [] })]

/-! # Theorems -/

/-! ## Helper lemmas -/

/-- `readBytes` on a replicated stream splits the replication. -/
theorem readBytes_replicate (n m a : Nat) (h : n ≤ m) :
    readBytes n (List.replicate m a) =
      .ok (List.replicate n a, List.replicate (m - n) a) := by
  simp [readBytes, Nat.not_lt.mpr h, List.take_replicate, List.drop_replicate,
    Nat.min_eq_left h]

/-- `alistSet` makes the key it writes immediately visible. -/
theorem alistSet_lookup_self {β : Type} (l : List (Nat × β)) (k : Nat) (v : β) :
    (alistSet l k v).lookup k = some v := by
  induction l with
  | nil => simp [alistSet, List.lookup]
  | cons p rest ih =>
    cases p with
    | mk k' v' =>
      by_cases h : k' = k
      · simp [alistSet, h, List.lookup]
      · have hb : (k' == k) = false := beq_eq_false_iff_ne.mpr h
        have hb2 : (k == k') = false := beq_eq_false_iff_ne.mpr (fun e => h e.symm)
        simp [alistSet, hb, List.lookup, hb2, ih]

/-- The length prefix `0x80 0x81 0x01` — the encoding of 16512 — decodes
to a payload length of 16384: at the third byte the source computes
`(l & 0x7F) | (1 & 0x7F) * 16384` with `l = 128`, and the mask erases
the second byte's contribution of 128. -/
theorem lengthPrefix_16512_step (r : List Nat) :
    lengthPrefixedStringReader (128 :: 129 :: 1 :: r) = readBytes 16384 r := rfl

/-- Type resolution of `c1ClassInfo` from the fresh bridge state yields
`c1Ti` and moves the state to `c1St1`. -/
theorem c1_typeres_init :
    getCliTypeInstanceForClassInfo bridgeInitialState c1ClassInfo =
      .ok (c1Ti, c1St1) := rfl

/-- From `c1St1` the resolution is a cache hit: same instance, same
state.  This is the fixed point the divergence induction runs on. -/
theorem c1_typeres_fix :
    getCliTypeInstanceForClassInfo c1St1 c1ClassInfo = .ok (c1Ti, c1St1) := rfl

/-- Joint induction: from the post-resolution state `c1St1`, converting
the self-referential instance and converting the reference to it both
exhaust any amount of fuel — each unfolds into the other with one unit
less, and no step registers anything under id 1 first. -/
theorem c1_diverges_joint (n : Nat) :
    convertValue n c1Res c1St1 c1SelfInst = .error .fuelExhausted ∧
    convertValue n c1Res c1St1 (.objectRef 1) = .error .fuelExhausted := by
  induction n with
  | zero => exact ⟨rfl, rfl⟩
  | succ n ih =>
    refine ⟨?_, ?_⟩
    · have h := ih.2
      simp only [convertValue, c1SelfInst, c1_typeres_fix, convertMembers]
      rw [h]
      rfl
    · exact (show convertValue (n + 1) c1Res c1St1 (.objectRef 1) =
        convertValue n c1Res c1St1 c1SelfInst from rfl) ▸ ih.1

/-! ## Claim theorems -/

/-- C1.  REFUTED on the code: for the valid NRBF decode result holding a
self-referential `Instance` (its member value is an `ObjectReference` to
its own object id 1, exactly what the forward-registering record layer
produces), converting from the root via the bridge does NOT terminate:
for every fuel bound the conversion runs out of fuel, because
`_convert_value` converts the member values before it stores anything
under `object_id` (the cache write at binary/bridge.py:503 runs last),
so the self-reference finds no cache entry and recurses forever.  In
Python this is an unbounded recursion (`RecursionError`); the claimed
cycle-breaking and at-most-one-allocation guarantees never come into
play. -/
theorem bridge_selfref_instance_diverges (fuel : Nat) :
    bridgeCall fuel c1Res = .error .fuelExhausted := by
  have hmain : ∀ n, convertValue n c1Res bridgeInitialState c1SelfInst =
      .error .fuelExhausted := by
    intro n
    match n with
    | 0 => rfl
    | n + 1 =>
      have h := (c1_diverges_joint n).2
      simp only [convertValue, c1SelfInst, c1_typeres_init, convertMembers]
      rw [h]
      rfl
  exact (show bridgeCall fuel c1Res =
    convertValue fuel c1Res bridgeInitialState c1SelfInst from rfl) ▸ hmain fuel

/-- C2.  REFUTED on the code (and the 6th-byte rejection CONFIRMED):
encoding 16512 as a length prefix gives `0x80 0x81 0x01`, but decoding
it reads only a 16384-byte payload — the masking bug
`l = (l & 0x7F) | ...` erases the second byte group — so the round trip
yields 16384 ≠ 16512 even though 16512 < 2 ^ 28.  The round trip does
hold below 2 ^ 14 (witnessed at 300), and a prefix whose fifth byte
still has the continuation bit set is rejected with
`InvalidStreamError("invalid length prefix")`. -/
theorem lengthPrefix_roundtrip_fails_at_16512 :
    lengthPrefixedStringReader (leb128Encode 16512 ++ List.replicate 16512 65) =
      .ok (List.replicate 16384 65, List.replicate 128 65) ∧
    (16384 : Nat) ≠ 16512 ∧
    lengthPrefixedStringReader (leb128Encode 300 ++ List.replicate 300 65) =
      .ok (List.replicate 300 65, []) ∧
    lengthPrefixedStringReader [128, 128, 128, 128, 128] =
      .error (.invalidStream "invalid length prefix") := by
  refine ⟨?_, by decide, ?_, rfl⟩
  · have henc : leb128Encode 16512 = [128, 129, 1] := by decide
    rw [henc, List.cons_append, List.cons_append, List.singleton_append,
      lengthPrefix_16512_step, readBytes_replicate 16384 16512 65 (by norm_num)]
  · have henc : leb128Encode 300 = [172, 2] := by decide
    rw [henc, List.cons_append, List.singleton_append,
      show ∀ r, lengthPrefixedStringReader (172 :: 2 :: r) = readBytes 300 r
        from fun _ => rfl,
      readBytes_replicate 300 300 65 (by norm_num)]
    rfl

/-- C3.  REFUTED on the code: the `ClassWithId` handler, fed a record
with `object_id = 3`, `metadata_id = 2` and a fresh member value 9,
does read both ids, reuse the referenced instance's `ClassInfo`, read
one element value per member, and yield the clone carrying the fresh
values — but the object registered under `object_id` 3 is
`that_object`, the referenced ORIGINAL instance still carrying value 7
(binary/handlers.py:407), not the clone. -/
theorem classWithId_registers_original_not_clone :
    classWithIdHandlerDeserialize 4 c3Ctx c3Stream =
      .ok ([.inst c3ClassInfo (some [.pyInt 9])], true,
           { c3Ctx with objects := [(2, c3Original), (3, c3Original)] }, []) ∧
    c3Original = .inst c3ClassInfo (some [.pyInt 7]) :=
  ⟨rfl, rfl⟩

/-- C4.  REFUTED on the code: the header check reads
`if major_version != 1 and minor_version != 0` — `and`, not `or` — so
version 2.0 (and any `x.0` or `1.y`) is ACCEPTED and stored in the
context, contradicting the claimed raise-iff-not-1.0 behaviour; 1.0 is
accepted and only versions differing in both components (for example
2.5) raise `VersionMismatch`. -/
theorem header_accepts_version_2_0 :
    serializedStreamHandlerDeserialize
        [1, 0, 0, 0, 2, 0, 0, 0, 2, 0, 0, 0, 0, 0, 0, 0] =
      .ok ({ rootId := some 1, headerId := some 2,
             majorVersion := some 2, minorVersion := some 0 }, []) ∧
    serializedStreamHandlerDeserialize
        [1, 0, 0, 0, 255, 255, 255, 255, 1, 0, 0, 0, 0, 0, 0, 0] =
      .ok ({ rootId := some 1, headerId := some (-1),
             majorVersion := some 1, minorVersion := some 0 }, []) ∧
    serializedStreamHandlerDeserialize
        [1, 0, 0, 0, 2, 0, 0, 0, 2, 0, 0, 0, 5, 0, 0, 0] =
      .error (.versionMismatch
        "this implementation only supports version 1.0 format") :=
  ⟨rfl, rfl, rfl⟩

/-- C5.  REFUTED on the code: `"0"` raises `ValueError("0")` instead of
yielding `False`, because the second branch of
`BooleanSerializer.deserialize` tests `value == "false" or value ==
"false"` — the `"0"` alternative is a duplicated `"false"` literal.
The remaining claimed behaviour holds: `true`/`1` (case-insensitively)
yield `True`, `false` in any casing yields `False`. -/
theorem booleanDeserialize_rejects_zero :
    booleanSerializerDeserialize "0" = .error (.valueError "0") ∧
    booleanSerializerDeserialize "true" = .ok ⟨.boolean, .b true⟩ ∧
    booleanSerializerDeserialize "1" = .ok ⟨.boolean, .b true⟩ ∧
    booleanSerializerDeserialize "TRUE" = .ok ⟨.boolean, .b true⟩ ∧
    booleanSerializerDeserialize "FaLsE" = .ok ⟨.boolean, .b false⟩ :=
  ⟨rfl, rfl, rfl, rfl, rfl⟩

/-- C6.  CONFIRMED: stringification renders the dotted namespace, a dot
(omitted for an empty namespace string), the name, and the
`<p1, p2, …>` list exactly when the type has parameters, with resolved
slots rendered recursively, unresolved slots as `?`, bindings resolved
through `ctx.refs`, and re-entry under the same context yielding the
stored entry — the `"..."` sentinel while the type is being
stringified.  The first conjunct proves re-entry generally (whatever
`reprs` holds for the type is returned unchanged, so re-entry during
stringification emits the sentinel installed on entry); the second
proves the namespace-dot-name rendering generally for every
parameterless type; the `Dictionary<String, Foo.Bar.Foo>` instance —
built through the bridge's own type-creation and instantiation path —
stringifies to the claimed text; a self-parameterised type prints
`T<...>` (also witnessing the empty-namespace case: no leading dot); an
open slot prints `?`; a binding slot prints its referent. -/
theorem stringify_examples :
    (∀ (fuel : Nat) (types : List (Nat × TypeNode))
        (ctxs : List (Nat × ResolutionCtx)) (ctxId tid : Nat)
        (ctx : ResolutionCtx) (t : TypeNode) (s : String),
      ctxs.lookup ctxId = some ctx → types.lookup tid = some t →
      ctx.reprs.lookup tid = some s →
      stringifyType (fuel + 1) types ctxs ctxId tid = some s) ∧
    (∀ (fuel : Nat) (types : List (Nat × TypeNode))
        (ctxs : List (Nat × ResolutionCtx)) (ctxId tid : Nat)
        (ctx : ResolutionCtx) (t : TypeNode),
      ctxs.lookup ctxId = some ctx → types.lookup tid = some t →
      ctx.reprs.lookup tid = none → t.parameters = [] →
      stringifyType (fuel + 1) types ctxs ctxId tid =
        some ((if cliNamespaceStr t.nspace ≠ "" then cliNamespaceStr t.nspace ++ "."
            else cliNamespaceStr t.nspace) ++ t.name)) ∧
    strOfInstance 12 c6St2.types c6St2.ctxs c6DictTi =
      some "System.Collections.Generic.Dictionary<System.String, Foo.Bar.Foo>" ∧
    stringifyType 10 c6CycTypes c6OneCtx 0 0 = some "T<...>" ∧
    stringifyType 10 c6QTypes c6OneCtx 0 0 =
      some "System.Collections.Generic.List<?>" ∧
    stringifyType 10 c6BindTypes c6BindCtx 0 0 = some "Wrap<System.Boolean>" := by
  refine ⟨?_, ?_, rfl, rfl, rfl, rfl⟩
  · intro fuel types ctxs ctxId tid ctx t s hc ht hr
    simp only [stringifyType, stringifyStep, hc, ht, hr]
  · intro fuel types ctxs ctxId tid ctx t hc ht hr hp
    simp only [stringifyType, stringifyStep, hc, ht, hr, hp, List.isEmpty_nil,
      if_true, alistSet_lookup_self, String.append_empty]

/-- Witness for C6's two general clauses at concrete inputs: re-entry on
a context whose `reprs` already holds the sentinel for the type returns
it, and a parameterless builtin renders as namespace-dot-name. -/
theorem stringify_examples_witness :
    stringifyType 3 c6CycTypes
        [(0, { resolved := [], refs := [], reprs := [(0, "...")] })] 0 0 =
      some "..." ∧
    stringifyType 3 c6BindTypes c6BindCtx 0 1 = some "System.Boolean" := by
  refine ⟨stringify_examples.1 2 _ _ 0 0 _ _ "..." rfl rfl rfl, ?_⟩
  have h := stringify_examples.2.1 2 c6BindTypes c6BindCtx 0 1
    { resolved := [], refs := [("T", ⟨0, 1⟩)], reprs := [] }
    (mkIntrinsicNode "Boolean" SYSTEM_NAMESPACE) rfl rfl rfl rfl
  simpa using h

/-- C7.  CONFIRMED: for every parsed integer, the long deserializer
yields the value itself, typed `Int32` exactly when
`-2^31 ≤ v ≤ 2^31 - 1` and `Int64` otherwise — the
`bit_length() + 1` arithmetic (with the `(value + 1)` twist on the
non-positive branch) computes precisely the signed-32-bit range test,
boundary cases included. -/
theorem longDeserialize_int32_iff_fits32 (v : Int) :
    ((longSerializerDeserialize v).typeInstance = .int32 ↔
      -2147483648 ≤ v ∧ v ≤ 2147483647) ∧
    (longSerializerDeserialize v).value = .i v := by
  have hpow : (2 : Nat) ^ 31 = 2147483648 := by norm_num
  have key : (if v > 0 then pyBitLength v + 1 else pyBitLength (v + 1) + 1) ≤ 32 ↔
      (-2147483648 ≤ v ∧ v ≤ 2147483647) := by
    unfold pyBitLength
    by_cases h : v > 0
    · simp only [h, if_true]
      rw [show v.natAbs.size + 1 ≤ 32 ↔ v.natAbs.size ≤ 31 from by omega,
        Nat.size_le, hpow]
      omega
    · simp only [h, if_false]
      rw [show (v + 1).natAbs.size + 1 ≤ 32 ↔ (v + 1).natAbs.size ≤ 31 from by omega,
        Nat.size_le, hpow]
      omega
  unfold longSerializerDeserialize
  by_cases hb : (if v > 0 then pyBitLength v + 1 else pyBitLength (v + 1) + 1) ≤ 32
  · simp only [hb, if_true]
    exact ⟨⟨fun _ => key.mp hb, fun _ => trivial⟩, trivial⟩
  · simp only [hb, if_false]
    refine ⟨⟨fun hc => ?_, fun hr => absurd (key.mpr hr) hb⟩, trivial⟩
    cases hc

/-- C8.  REFUTED on the code: delivering a start-element event to a
`BasicObjectHandler` resolves `startElementNS` past the handler's own
class dict — whose raising method is misspelled `startElemenNS` — to
`ContentHandler`'s do-nothing default, so a nested element is silently
ignored and `InvalidDataContractPayload` is never raised on that path;
only a direct call of the misspelled name (which the SAX driver never
makes) raises it. -/
theorem basicObjectHandler_nested_start_is_noop (name : String)
    (st : BasicObjectHandlerState) :
    deliverEvent basicObjectHandlerMRO "startElementNS" name st = .ok st ∧
    deliverEvent basicObjectHandlerMRO "startElemenNS" name st =
      .error (.invalidDataContractPayload
        "basic object may not contain nested elements") :=
  ⟨rfl, rfl⟩

/-- C9.  CONFIRMED: for every attribute string the bool deserializer
accepts — so `"false"`, `"1"`, `"TRUE"`, … alike — the `xsi:nil` branch
of `MemberHandler.startElementNS` installs a `NilObjectHandler`,
because it tests the truthiness of the returned `CLIBasicValue` object
(always truthy) rather than the wrapped boolean; the installed handler
then pushes the nil value `CLIBasicValue(cli_type, None)` at its end
event. -/
theorem memberHandler_nil_for_any_accepted_bool (s : String)
    (bv : XsdBasicValue) (h : booleanSerializerDeserialize s = .ok bv) :
    memberHandlerNilCheck [((XMLSCHEMA_INSTANCE_NAMESPACE, "nil"), s)] =
      .ok .installNilHandler ∧
    ∀ ty, nilObjectHandlerEnd ty = ⟨ty, .noneV⟩ := by
  constructor
  · unfold memberHandlerNilCheck
    rw [show List.lookup (XMLSCHEMA_INSTANCE_NAMESPACE, "nil")
        [((XMLSCHEMA_INSTANCE_NAMESPACE, "nil"), s)] = some s from by
      simp [List.lookup]]
    simp only [h, pyTruthyBasicValue, if_true]
  · intro ty
    rfl

/-- Witness for C9 at the pointed input `"false"`: the bool deserializer
accepts it, decoding it to `False`, and the nil handler is installed all
the same. -/
theorem memberHandler_nil_for_any_accepted_bool_witness :
    booleanSerializerDeserialize "false" = .ok ⟨.boolean, .b false⟩ ∧
    memberHandlerNilCheck [((XMLSCHEMA_INSTANCE_NAMESPACE, "nil"), "false")] =
      .ok .installNilHandler :=
  ⟨rfl, (memberHandler_nil_for_any_accepted_bool "false" ⟨.boolean, .b false⟩ rfl).1⟩

/-- C10.  CONFIRMED: `from_python_value` on a Python bool lands in the
`isinstance(v, int)` branch (checked before any bool-specific handling,
and `bool` is a subtype of `int`), producing a `CLIBasicValue` whose
type instance is the `Int32` builtin — not the `Boolean` one — with the
bool itself as payload; the NRBF `read_boolean` reader yields exactly
such Python bools; and the bridge's fallback arm surfaces them through
`from_python_value` unchanged, so Boolean primitive members (and
Boolean elements of `ArraySinglePrimitive` arrays, which take the same
fallback arm element-wise) come out `Int32`-typed. -/
theorem fromPythonValue_bool_is_int32 (b : Bool) (c : Nat) (rest : List Nat)
    (fuel : Nat) (res : DecodeCtxM) :
    fromPythonValue bridgeInitialState (.pyBool b) =
      .ok (.basic SYSTEM_INT32_inst (.boolP b)) ∧
    untypedPrimitiveValueReader .boolean (c :: rest) =
      .ok ([.pyBool (c != 0)], rest) ∧
    convertValue (fuel + 1) res bridgeInitialState (.pyBool b) =
      .ok (.basic SYSTEM_INT32_inst (.boolP b), bridgeInitialState) ∧
    SYSTEM_INT32_inst ≠ SYSTEM_BOOLEAN_inst :=
  ⟨rfl, rfl, rfl, by decide⟩

end Dotnetserde
